import Mathlib

/-! Credit-scoring service: scoring pipeline and cache-aside serving

A shallow embedding of `services/credit-scoring` (Go) and the properties of its
scoring-and-serving core.

Modelling conventions
* `float64` quantities are exact rationals (`ℚ`).  Every constant of the program
  (band values, lookup values, the weights `0.30`, `0.25`, `0.20`) is written as in
  the source; rounding of intermediate results is not modelled in the scoring
  pipeline.  The loan-history sub-score, the one place where a quotient is formed, is
  also given with binary64 rounding (`calculateLoanHistoryScoreF64`) and compared with
  the exact one.
* Go `int` is `Int`; `int(x)` on a float is truncation toward zero.
* `time.Time` is an instant in nanoseconds (`Int`), `time.Duration` a number of
  nanoseconds.  Each call of `time.Now()` is an input of the operation that makes it.
* A Go `error` result is `Option GoError`, with `none` for `nil`.
* The collaborators (SQL table, key-value cache, message transport) are explicit
  state; whether a call to one of them fails is an input of the operation.
* Logging is not modelled.
-/

/-! ## Errors, time, maps -/

/-- Go error values: the `sql.ErrNoRows` sentinel, values built by `fmt.Errorf`,
and errors raised by a driver or transport. -/
inductive GoError where
  | ErrNoRows
  | Errorf (msg : String)
  | driver (msg : String)
deriving DecidableEq, Repr

/-- The `Error()` text of an error value. -/
def GoError.Error : GoError → String
  | .ErrNoRows => "sql: no rows in result set"
  | .Errorf msg => msg
  | .driver msg => msg

namespace time

/-- One second, in nanoseconds. -/
def Second : Int := 1000000000

/-- One minute, in nanoseconds. -/
def Minute : Int := 60 * Second

/-- One hour, in nanoseconds. -/
def Hour : Int := 60 * Minute

end time

/-- Indexing a Go map literal: the value stored under the key, or the zero value
of the element type when the key is absent. -/
def goMapIndex {β : Type} (m : List (String × β)) (zero : β) (k : String) : β :=
  match m.lookup k with
  | some v => v
  | none => zero

/-- Conversion `int(x)` of a float to an integer: the fractional part is discarded
(truncation toward zero). -/
def goInt (x : ℚ) : Int :=
  if 0 ≤ x then ⌊x⌋ else ⌈x⌉

/-! ## Rounding of `float64` -/

/-- The integer nearest to a rational, the even one of the two when it lies half-way
between them. -/
def roundHalfEven (m : ℚ) : Int :=
  let f := ⌊m⌋
  if m - f < 1 / 2 then f
  else if 1 / 2 < m - f then f + 1
  else if f % 2 = 0 then f
  else f + 1

/-- The `float64` nearest to a rational (IEEE 754 binary64, round to nearest, ties to
even): the value is scaled so that its significand lies in [2^52, 2^53), rounded to an
integer and scaled back.  The exponent range is not limited: every value rounded in
this development is 0 or has a magnitude between 2^-64 and 2^64 on the inputs a Go
program can hold, where binary64 has neither overflow nor subnormal numbers. -/
def roundF64 (x : ℚ) : ℚ :=
  if x = 0 then 0
  else
    let ulp : ℚ := (2 : ℚ) ^ (Int.log 2 |x| - 52)
    if 0 < x then roundHalfEven (x / ulp) * ulp
    else -(roundHalfEven (-x / ulp) * ulp)

/-! ## Data shapes (`internal/dto`, `internal/model`) -/

namespace dto

structure LoanHistoryItem where
  Amount : ℚ
  Status : String
  PaymentDate : Int
deriving DecidableEq, Repr

structure CalculateScoreRequest where
  UserID : String
  IncomeAmount : ℚ
  EmploymentStatus : String
  AccountAge : Int
  TransactionData : List (String × String)
  LoanHistory : List LoanHistoryItem
deriving DecidableEq, Repr

/-- Method `Validate` of the request: `none` when the request is accepted. -/
def CalculateScoreRequest.Validate (r : CalculateScoreRequest) : Option GoError :=
  let validStatuses : List (String × Bool) :=
    [("employed", true), ("self-employed", true), ("unemployed", true), ("retired", true)]
  if !(goMapIndex validStatuses false r.EmploymentStatus) then
    some (.Errorf ("invalid employment status: " ++ r.EmploymentStatus))
  else if r.IncomeAmount < 0 then
    some (.Errorf "income amount cannot be negative")
  else
    none

structure CreditScore where
  ID : String
  UserID : String
  Score : Int
  Grade : String
  Factors : List String
  Recommendation : String
  CalculatedAt : Int
  ExpiresAt : Int
deriving DecidableEq, Repr

structure CreditScoreHistory where
  UserID : String
  History : List CreditScore
deriving DecidableEq, Repr

/-- What a handler puts in the `Data` field (an `interface{}`) of a response. -/
inductive ResponseData where
  | empty
  | score (value : CreditScore)
  | history (value : CreditScoreHistory)
deriving DecidableEq, Repr

structure SuccessResponse where
  Success : Bool
  Data : ResponseData
  Message : String
deriving DecidableEq, Repr

end dto

namespace errors

structure APIError where
  Code : String
  Message : String
deriving DecidableEq, Repr

def NewAPIError (code message : String) : APIError :=
  { Code := code, Message := message }

end errors

namespace model

/-- A row of the `credit_scores` table. -/
structure CreditScore where
  ID : String
  UserID : String
  Score : Int
  Grade : String
  Factors : List String
  Recommendation : String
  CalculatedAt : Int
  ExpiresAt : Int
  CreatedAt : Int
  UpdatedAt : Int
deriving DecidableEq, Repr

end model

/-! ## Score store (`internal/repository`) -/

/-- The repository over the `credit_scores` table.  Rows are kept in insertion
order. -/
structure CreditRepository where
  db : List model.CreditScore
deriving DecidableEq, Repr

namespace CreditRepository

/-- The repository exports the `sql.ErrNoRows` sentinel under this name. -/
def ErrNotFound : GoError := GoError.ErrNoRows

/-- Statement `INSERT INTO credit_scores (id, user_id, score, grade, factors, recommendation,
calculated_at, expires_at)`: the eight supplied columns are stored, `created_at` and
`updated_at` are filled by the table with `stamp`.  `fault` is the failure of the
statement, if any; a failed statement stores nothing. -/
def Create (r : CreditRepository) (score : model.CreditScore) (stamp : Int)
    (fault : Option GoError) : CreditRepository × Option GoError :=
  match fault with
  | some err => (r, some err)
  | none => ({ db := r.db ++ [{ score with CreatedAt := stamp, UpdatedAt := stamp }] }, none)

/-- One step of the scan for the greatest `calculated_at`: the row replaces the best
one so far only when it is strictly later. -/
def pickLater (best : Option model.CreditScore) (row : model.CreditScore) :
    Option model.CreditScore :=
  match best with
  | none => some row
  | some b => if b.CalculatedAt < row.CalculatedAt then some row else some b

/-- First row of `SELECT ... WHERE user_id = $1 ORDER BY calculated_at DESC LIMIT 1`:
a row of the user with the greatest calculation time (among rows with equal
calculation time, the one inserted first). -/
def queryLatest (rows : List model.CreditScore) (userID : String) :
    Option model.CreditScore :=
  (rows.filter (fun row => row.UserID = userID)).foldl pickLater none

/-- Outcome of `QueryRowContext(...).Scan(...)`: the failure of the statement if it
has one, `sql.ErrNoRows` when the result set is empty, the scanned row otherwise. -/
def scanLatest (r : CreditRepository) (userID : String) (fault : Option GoError) :
    Except GoError model.CreditScore :=
  match fault with
  | some err => .error err
  | none =>
    match queryLatest r.db userID with
    | none => .error GoError.ErrNoRows
    | some row => .ok row

def GetLatestByUserID (r : CreditRepository) (userID : String) (fault : Option GoError) :
    Except GoError model.CreditScore :=
  match r.scanLatest userID fault with
  | .error err => if err = GoError.ErrNoRows then .error ErrNotFound else .error err
  | .ok score => .ok score

/-- Result set of `SELECT ... WHERE user_id = $1 ORDER BY calculated_at DESC LIMIT $2`:
the rows of the user, latest calculation first (rows with equal calculation time in
insertion order), cut to the limit. -/
def queryHistory (rows : List model.CreditScore) (userID : String) (limit : Int) :
    List model.CreditScore :=
  (List.insertionSort (fun a b : model.CreditScore => a.CalculatedAt ≥ b.CalculatedAt)
    (rows.filter (fun row => row.UserID = userID))).take limit.toNat

/-- The three places where `GetHistoryByUserID` can meet a failure: `QueryContext`
fails; `Scan` of the row at `index` fails; the iteration stops after `read` rows and
`rows.Err()` reports the failure. -/
inductive HistoryFault where
  | query (err : GoError)
  | scan (index : Nat) (err : GoError)
  | rows (read : Nat) (err : GoError)
deriving DecidableEq, Repr

/-- The pair `(scores, err)` that `GetHistoryByUserID` returns. -/
def GetHistoryByUserID (r : CreditRepository) (userID : String) (limit : Int)
    (fault : Option HistoryFault) : List model.CreditScore × Option GoError :=
  match fault with
  | some (.query err) => ([], some err)
  | some (.scan index err) =>
    if index < (queryHistory r.db userID limit).length then ([], some err)
    else (queryHistory r.db userID limit, none)
  | some (.rows read err) => ((queryHistory r.db userID limit).take read, some err)
  | none => (queryHistory r.db userID limit, none)

end CreditRepository

/-! ## Score cache (`pkg/redis`) -/

/-- Modelled from the spec: package `pkg/redis` (type `RedisClient`) is not among the
sources.  The spec gives the Score Cache as a volatile key-value store keyed by a
string, each entry carrying the TTL it was written with.  Entries are not aged: the
model covers reads made within the TTL of what was written. -/
structure RedisClient where
  entries : List (String × dto.CreditScore × Int)
deriving DecidableEq, Repr

/-- Modelled from the spec: `Get(key) → value | miss` of the missing `pkg/redis`;
`none` stands for the non-nil error of a miss. -/
def RedisClient.Get (c : RedisClient) (key : String) : Option dto.CreditScore :=
  match c.entries.lookup key with
  | some entry => some entry.1
  | none => none

/-- Modelled from the spec: `Set(key, value, ttl) → error` of the missing `pkg/redis`.
A successful write replaces the entry under the key; a failed one (`fault`) leaves the
cache as it was. -/
def RedisClient.Set (c : RedisClient) (key : String) (value : dto.CreditScore) (ttl : Int)
    (fault : Option GoError) : RedisClient × Option GoError :=
  match fault with
  | some err => (c, some err)
  | none => ({ entries := (key, value, ttl) :: c.entries.filter (fun e => e.1 ≠ key) }, none)

/-- Modelled from the spec: `Delete(key) → error` of the missing `pkg/redis`,
idempotent on a missing key.  A failed delete (`fault`) leaves the cache as it was. -/
def RedisClient.Delete (c : RedisClient) (key : String) (fault : Option GoError) :
    RedisClient × Option GoError :=
  match fault with
  | some err => (c, some err)
  | none => ({ entries := c.entries.filter (fun e => e.1 ≠ key) }, none)

/-! ## Event publisher (`pkg/kafka`) -/

/-- The scoring event handed to `json.Marshal`; its five entries are the message
payload. -/
structure ScoreEvent where
  eventType : String
  userId : String
  score : Int
  grade : String
  timestamp : Int
deriving DecidableEq, Repr

/-- The producer: the topics that have a writer, and the messages the transport has
accepted, oldest first. -/
structure Producer where
  writers : List String
  written : List (String × ScoreEvent)
deriving DecidableEq, Repr

/-- Method `Publish` creates the writer of the topic on first use and writes the message;
`fault` is the failure of `WriteMessages`, if any, which is returned wrapped. -/
def Producer.Publish (p : Producer) (topic : String) (message : ScoreEvent)
    (fault : Option GoError) : Producer × Option GoError :=
  let p := if topic ∈ p.writers then p else { p with writers := p.writers ++ [topic] }
  match fault with
  | some err => (p, some (GoError.Errorf ("failed to write message: " ++ err.Error)))
  | none => ({ p with written := p.written ++ [(topic, message)] }, none)

/-! ## The scoring service (`internal/service`) -/

/-- A call made to a collaborator. -/
inductive Call where
  | repoCreate (row : model.CreditScore)
  | repoGetLatest (userID : String)
  | repoGetHistory (userID : String) (limit : Int)
  | cacheGet (key : String)
  | cacheSet (key : String) (value : dto.CreditScore) (ttl : Int)
  | cacheDelete (key : String)
  | publish (topic : String) (message : ScoreEvent)
deriving DecidableEq, Repr

/-- The service with the state of its collaborators.  `calls` records the calls the
service has made to them, oldest first. -/
structure CreditScoringService where
  repo : CreditRepository
  cache : RedisClient
  producer : Producer
  calls : List Call
deriving DecidableEq, Repr

/-- What `CalculateScore` takes from its environment: the four clock readings in the
order they are made (`generateID`, `CalculatedAt`, `ExpiresAt`, the event), the
table's stamp for a new row, and the failure, if any, of each collaborator call. -/
structure CalculateScoreEnv where
  nowID : Int
  nowCalculatedAt : Int
  nowExpiresAt : Int
  nowEvent : Int
  dbStamp : Int
  createFault : Option GoError
  setFault : Option GoError
  publishFault : Option GoError
deriving DecidableEq, Repr

/-- What `GetScore` takes from its environment: the failure, if any, of the store
read and of the cache write. -/
structure GetScoreEnv where
  readFault : Option GoError
  setFault : Option GoError
deriving DecidableEq, Repr

/-- What `GetHistory` takes from its environment: the failure, if any, of the store
read. -/
structure GetHistoryEnv where
  fault : Option CreditRepository.HistoryFault
deriving DecidableEq, Repr

/-- What `RefreshScore` takes from its environment: the failure, if any, of the cache
delete, and the environment of the read it delegates to. -/
structure RefreshScoreEnv where
  deleteFault : Option GoError
  read : GetScoreEnv
deriving DecidableEq, Repr

/-! ## Factor calculators and score aggregation (`internal/service`) -/

namespace CreditScoringService

def calculateIncomeScore (income : ℚ) : ℚ :=
  if income < 50000 then 300
  else if income < 100000 then 450
  else if income < 200000 then 600
  else if income < 500000 then 750
  else 850

def calculateEmploymentScore (status : String) : ℚ :=
  let scores : List (String × ℚ) :=
    [("employed", 750), ("self-employed", 650), ("unemployed", 350), ("retired", 550)]
  goMapIndex scores 0 status

def calculateAccountAgeScore (ageInMonths : Int) : ℚ :=
  min (300 + (ageInMonths : ℚ) * 10) 850

def calculateLoanHistoryScore (history : List dto.LoanHistoryItem) : ℚ :=
  if history.length = 0 then
    500
  else
    let paidOnTime : Nat :=
      history.foldl (fun n loan => if loan.Status = "paid" then n + 1 else n) 0
    let ratio : ℚ := (paidOnTime : ℚ) / (history.length : ℚ)
    300 + (ratio * 550)

/-- The function `calculateLoanHistoryScore` with every `float64` operation rounded:
the two conversions of an `int`, the division, the multiplication and the addition.
`fused` tells whether the compiler fuses `300 + (ratio * 550)` into one multiply-add
with a single rounding, which Go permits. -/
def calculateLoanHistoryScoreF64 (fused : Bool) (history : List dto.LoanHistoryItem) : ℚ :=
  if history.length = 0 then
    500
  else
    let paidOnTime : Nat :=
      history.foldl (fun n loan => if loan.Status = "paid" then n + 1 else n) 0
    let ratio : ℚ := roundF64 (roundF64 (paidOnTime : ℚ) / roundF64 (history.length : ℚ))
    if fused then roundF64 (300 + (ratio * 550))
    else roundF64 (300 + roundF64 (ratio * 550))

def getGrade (score : Int) : String :=
  if score ≥ 800 then "Excellent"
  else if score ≥ 740 then "Very Good"
  else if score ≥ 670 then "Good"
  else if score ≥ 580 then "Fair"
  else "Poor"

def generateFactors (req : dto.CalculateScoreRequest) (score : Int) : List String :=
  let factors : List String := []
  let factors :=
    if req.IncomeAmount < 100000 then factors ++ ["Low income level"] else factors
  let factors :=
    if req.AccountAge < 12 then factors ++ ["Short account history"] else factors
  let factors :=
    if req.EmploymentStatus = "unemployed" then factors ++ ["Current unemployment"]
    else factors
  let factors :=
    if score ≥ 700 then (factors ++ ["Strong payment history"]) ++ ["Good financial stability"]
    else factors
  factors

def generateRecommendation (score : Int) : String :=
  if score ≥ 740 then "Excellent credit profile. Eligible for best rates and terms."
  else if score ≥ 670 then "Good credit profile. Eligible for competitive rates."
  else if score ≥ 580 then "Fair credit profile. May need additional documentation."
  else "Credit profile needs improvement. Consider secured products."

/-- The identifier built from one clock reading (`time.Now().UnixNano()`). -/
def generateID (now : Int) : String :=
  "cs_" ++ toString now

def CalculateScore (s : CreditScoringService) (env : CalculateScoreEnv)
    (req : dto.CalculateScoreRequest) :
    Except GoError dto.CreditScore × CreditScoringService :=
  -- Calculate base score components
  let incomeScore := calculateIncomeScore req.IncomeAmount
  let employmentScore := calculateEmploymentScore req.EmploymentStatus
  let accountAgeScore := calculateAccountAgeScore req.AccountAge
  let loanHistoryScore := calculateLoanHistoryScore req.LoanHistory
  -- Weighted average
  let totalScore : Int :=
    goInt (incomeScore * 0.30 + employmentScore * 0.25 + accountAgeScore * 0.20 +
      loanHistoryScore * 0.25)
  -- Ensure score is in valid range (300-850)
  let totalScore := if totalScore < 300 then 300 else totalScore
  let totalScore := if totalScore > 850 then 850 else totalScore
  let grade := getGrade totalScore
  let factors := generateFactors req totalScore
  let recommendation := generateRecommendation totalScore
  let creditScore : dto.CreditScore :=
    { ID := generateID env.nowID
      UserID := req.UserID
      Score := totalScore
      Grade := grade
      Factors := factors
      Recommendation := recommendation
      CalculatedAt := env.nowCalculatedAt
      ExpiresAt := env.nowExpiresAt + 30 * 24 * time.Hour }
  -- Save to database
  let dbModel : model.CreditScore :=
    { ID := creditScore.ID
      UserID := creditScore.UserID
      Score := creditScore.Score
      Grade := creditScore.Grade
      Factors := creditScore.Factors
      Recommendation := creditScore.Recommendation
      CalculatedAt := creditScore.CalculatedAt
      ExpiresAt := creditScore.ExpiresAt
      CreatedAt := 0
      UpdatedAt := 0 }
  let created := s.repo.Create dbModel env.dbStamp env.createFault
  let s := { s with repo := created.1, calls := s.calls ++ [Call.repoCreate dbModel] }
  match created.2 with
  | some err => (.error err, s)
  | none =>
    -- Cache the result
    let cacheKey := "credit_score:" ++ req.UserID
    let cached := s.cache.Set cacheKey creditScore (15 * time.Minute) env.setFault
    let s :=
      { s with
        cache := cached.1
        calls := s.calls ++ [Call.cacheSet cacheKey creditScore (15 * time.Minute)] }
    -- Publish event
    let event : ScoreEvent :=
      { eventType := "credit_score_calculated"
        userId := req.UserID
        score := totalScore
        grade := grade
        timestamp := env.nowEvent }
    let published := s.producer.Publish "credit-scoring-events" event env.publishFault
    let s :=
      { s with
        producer := published.1
        calls := s.calls ++ [Call.publish "credit-scoring-events" event] }
    (.ok creditScore, s)

def GetScore (s : CreditScoringService) (env : GetScoreEnv) (userID : String) :
    Except GoError dto.CreditScore × CreditScoringService :=
  -- Try cache first
  let cacheKey := "credit_score:" ++ userID
  let s := { s with calls := s.calls ++ [Call.cacheGet cacheKey] }
  match s.cache.Get cacheKey with
  | some cachedScore => (.ok cachedScore, s)
  | none =>
    -- Fetch from database
    let s := { s with calls := s.calls ++ [Call.repoGetLatest userID] }
    match s.repo.GetLatestByUserID userID env.readFault with
    | .error err => (.error err, s)
    | .ok dbScore =>
      let score : dto.CreditScore :=
        { ID := dbScore.ID
          UserID := dbScore.UserID
          Score := dbScore.Score
          Grade := dbScore.Grade
          Factors := dbScore.Factors
          Recommendation := dbScore.Recommendation
          CalculatedAt := dbScore.CalculatedAt
          ExpiresAt := dbScore.ExpiresAt }
      -- Cache for next time
      let cached := s.cache.Set cacheKey score (15 * time.Minute) env.setFault
      let s :=
        { s with
          cache := cached.1
          calls := s.calls ++ [Call.cacheSet cacheKey score (15 * time.Minute)] }
      (.ok score, s)

def GetHistory (s : CreditScoringService) (env : GetHistoryEnv) (userID : String) :
    Except GoError dto.CreditScoreHistory × CreditScoringService :=
  let s := { s with calls := s.calls ++ [Call.repoGetHistory userID 12] }
  let fetched := s.repo.GetHistoryByUserID userID 12 env.fault -- Last 12 scores
  match fetched.2 with
  | some err => (.error err, s)
  | none =>
    let history : List dto.CreditScore :=
      fetched.1.map fun dbScore =>
        { ID := dbScore.ID
          UserID := dbScore.UserID
          Score := dbScore.Score
          Grade := dbScore.Grade
          Factors := dbScore.Factors
          Recommendation := dbScore.Recommendation
          CalculatedAt := dbScore.CalculatedAt
          ExpiresAt := dbScore.ExpiresAt }
    (.ok { UserID := userID, History := history }, s)

def RefreshScore (s : CreditScoringService) (env : RefreshScoreEnv) (userID : String) :
    Except GoError dto.CreditScore × CreditScoringService :=
  -- Invalidate cache
  let cacheKey := "credit_score:" ++ userID
  let deleted := s.cache.Delete cacheKey env.deleteFault
  let s := { s with cache := deleted.1, calls := s.calls ++ [Call.cacheDelete cacheKey] }
  s.GetScore env.read userID

end CreditScoringService

/-! ## HTTP handlers (`internal/handler`) -/

namespace http

def StatusOK : Int := 200

def StatusBadRequest : Int := 400

def StatusNotFound : Int := 404

def StatusInternalServerError : Int := 500

end http

/-- The object a handler passes to `c.JSON`. -/
inductive ResponseBody where
  | apiError (value : errors.APIError)
  | success (value : dto.SuccessResponse)
deriving DecidableEq, Repr

/-- What the caller of a handler receives: the status code and the body given to
`c.JSON`. -/
structure Response where
  status : Int
  body : ResponseBody
deriving DecidableEq, Repr

structure CreditHandler where
  service : CreditScoringService
deriving DecidableEq, Repr

namespace CreditHandler

/-- Handler `GetScore`; `userID` is the path parameter `userId`. -/
def GetScore (h : CreditHandler) (env : GetScoreEnv) (userID : String) :
    Response × CreditHandler :=
  if userID = "" then
    ({ status := http.StatusBadRequest
       body := .apiError (errors.NewAPIError "INVALID_REQUEST" "User ID is required") }, h)
  else
    let out := h.service.GetScore env userID
    match out.1 with
    | .error _ =>
      ({ status := http.StatusNotFound
         body := .apiError (errors.NewAPIError "NOT_FOUND" "Credit score not found") },
       { service := out.2 })
    | .ok score =>
      ({ status := http.StatusOK
         body := .success { Success := true, Data := .score score, Message := "" } },
       { service := out.2 })

/-- Handler `GetHistory`; `userID` is the path parameter `userId`. -/
def GetHistory (h : CreditHandler) (env : GetHistoryEnv) (userID : String) :
    Response × CreditHandler :=
  if userID = "" then
    ({ status := http.StatusBadRequest
       body := .apiError (errors.NewAPIError "INVALID_REQUEST" "User ID is required") }, h)
  else
    let out := h.service.GetHistory env userID
    match out.1 with
    | .error _ =>
      ({ status := http.StatusInternalServerError
         body := .apiError (errors.NewAPIError "INTERNAL_ERROR" "Failed to retrieve history") },
       { service := out.2 })
    | .ok history =>
      ({ status := http.StatusOK
         body := .success { Success := true, Data := .history history, Message := "" } },
       { service := out.2 })

end CreditHandler

open CreditScoringService

/-! ## Derived quantities used in the statements -/

/-- The value of the variable `totalScore` of `CalculateScore` after the range check:
the weighted sum of the four sub-scores, converted to `int`, then brought into
`[300, 850]`. -/
def CreditScoringService.totalScore (req : dto.CalculateScoreRequest) : Int :=
  let t : Int :=
    goInt (calculateIncomeScore req.IncomeAmount * 0.30 +
      calculateEmploymentScore req.EmploymentStatus * 0.25 +
      calculateAccountAgeScore req.AccountAge * 0.20 +
      calculateLoanHistoryScore req.LoanHistory * 0.25)
  let t := if t < 300 then 300 else t
  if t > 850 then 850 else t

/-- The record `CalculateScore` builds: every field but the timestamps and the
identifier is a function of the request. -/
def CreditScoringService.builtScore (env : CalculateScoreEnv)
    (req : dto.CalculateScoreRequest) : dto.CreditScore :=
  { ID := generateID env.nowID
    UserID := req.UserID
    Score := totalScore req
    Grade := getGrade (totalScore req)
    Factors := generateFactors req (totalScore req)
    Recommendation := generateRecommendation (totalScore req)
    CalculatedAt := env.nowCalculatedAt
    ExpiresAt := env.nowExpiresAt + 30 * 24 * time.Hour }

/-- The weighted sum in the spec's words: weights 0.30 (income), 0.25 (employment),
0.20 (account age) and 0.25 (loan history). -/
def weightedSum (income employment accountAge loanHistory : ℚ) : ℚ :=
  0.30 * income + 0.25 * employment + 0.20 * accountAge + 0.25 * loanHistory

/-- The row `CalculateScore` hands to the store. -/
def CreditScoringService.builtRow (env : CalculateScoreEnv)
    (req : dto.CalculateScoreRequest) : model.CreditScore :=
  { ID := (builtScore env req).ID
    UserID := (builtScore env req).UserID
    Score := (builtScore env req).Score
    Grade := (builtScore env req).Grade
    Factors := (builtScore env req).Factors
    Recommendation := (builtScore env req).Recommendation
    CalculatedAt := (builtScore env req).CalculatedAt
    ExpiresAt := (builtScore env req).ExpiresAt
    CreatedAt := 0
    UpdatedAt := 0 }

/-- The event `CalculateScore` hands to the producer. -/
def CreditScoringService.builtEvent (env : CalculateScoreEnv)
    (req : dto.CalculateScoreRequest) : ScoreEvent :=
  { eventType := "credit_score_calculated"
    userId := req.UserID
    score := totalScore req
    grade := getGrade (totalScore req)
    timestamp := env.nowEvent }

/-- The record `GetScore` builds from a row of the store: the eight fields of the
row that the record has, copied. -/
def dtoOf (row : model.CreditScore) : dto.CreditScore :=
  { ID := row.ID
    UserID := row.UserID
    Score := row.Score
    Grade := row.Grade
    Factors := row.Factors
    Recommendation := row.Recommendation
    CalculatedAt := row.CalculatedAt
    ExpiresAt := row.ExpiresAt }

/-- The recommendation as a function of the grade: the grades "Excellent" and
"Very Good" share the first text. -/
def recommendationOfGrade (grade : String) : String :=
  if grade = "Excellent" ∨ grade = "Very Good" then
    "Excellent credit profile. Eligible for best rates and terms."
  else if grade = "Good" then "Good credit profile. Eligible for competitive rates."
  else if grade = "Fair" then "Fair credit profile. May need additional documentation."
  else "Credit profile needs improvement. Consider secured products."

/-! ## Sample inputs -/

/-- A service whose store, cache and producer are empty. -/
def sampleService : CreditScoringService :=
  { repo := { db := [] }, cache := { entries := [] },
    producer := { writers := [], written := [] }, calls := [] }

/-- An environment in which every collaborator call succeeds. -/
def sampleEnv : CalculateScoreEnv :=
  { nowID := 1000, nowCalculatedAt := 1000, nowExpiresAt := 1000, nowEvent := 1000, dbStamp := 1000,
    createFault := none, setFault := none, publishFault := none }

/-- The request of the spec's first end-to-end scenario. -/
def sampleRequest : dto.CalculateScoreRequest :=
  { UserID := "u1", IncomeAmount := 120000, EmploymentStatus := "employed", AccountAge := 24,
    TransactionData := [], LoanHistory := [{ Amount := 1000, Status := "paid", PaymentDate := 0 }] }

/-- An environment in which the store write fails. -/
def sampleEnvCreateFails : CalculateScoreEnv :=
  { sampleEnv with createFault := some (GoError.driver "connection refused") }

/-- An environment in which the store write succeeds and both the cache write and the
publish fail. -/
def sampleEnvAdvisoryFail : CalculateScoreEnv :=
  { sampleEnv with
    setFault := some (GoError.driver "cache down")
    publishFault := some (GoError.driver "broker down") }

/-- A stored row of user `u1`, the later of the two sample rows. -/
def sampleRow : model.CreditScore :=
  { ID := "cs_1000", UserID := "u1", Score := 688, Grade := "Good", Factors := [],
    Recommendation := "Good credit profile. Eligible for competitive rates.",
    CalculatedAt := 1000, ExpiresAt := 2592000000001000, CreatedAt := 1000, UpdatedAt := 1000 }

/-- An earlier stored row of user `u1`. -/
def sampleOlderRow : model.CreditScore :=
  { ID := "cs_500", UserID := "u1", Score := 366, Grade := "Poor",
    Factors := ["Low income level", "Short account history", "Current unemployment"],
    Recommendation := "Credit profile needs improvement. Consider secured products.",
    CalculatedAt := 500, ExpiresAt := 2592000000000500, CreatedAt := 500, UpdatedAt := 500 }

/-- A service whose store holds the two sample rows and whose cache is empty. -/
def sampleStored : CreditScoringService :=
  { sampleService with repo := { db := [sampleOlderRow, sampleRow] } }

/-- A service whose store holds the two sample rows and whose cache still holds the
earlier one for user `u1`. -/
def sampleStale : CreditScoringService :=
  { sampleStored with
    cache := { entries := [("credit_score:u1", dtoOf sampleOlderRow, 15 * time.Minute)] } }

/-- A read environment in which every collaborator call succeeds. -/
def sampleReadEnv : GetScoreEnv :=
  { readFault := none, setFault := none }

/-- A refresh environment in which every collaborator call succeeds. -/
def sampleRefreshEnv : RefreshScoreEnv :=
  { deleteFault := none, read := sampleReadEnv }

/-- The request of the spec's second scenario. -/
def sampleLowRequest : dto.CalculateScoreRequest :=
  { UserID := "u2", IncomeAmount := 10000, EmploymentStatus := "unemployed", AccountAge := 2,
    TransactionData := [], LoanHistory := [] }

/-- A loan history with one "paid" entry out of four. -/
def sampleHistory : List dto.LoanHistoryItem :=
  [{ Amount := 100, Status := "paid", PaymentDate := 1 },
   { Amount := 200, Status := "late", PaymentDate := 2 },
   { Amount := 300, Status := "defaulted", PaymentDate := 3 },
   { Amount := 400, Status := "pending", PaymentDate := 4 }]

/-- A request whose employment status is outside the enumeration. -/
def sampleBadStatusRequest : dto.CalculateScoreRequest :=
  { sampleRequest with EmploymentStatus := "student" }

/-- An environment in which the clock advances by one nanosecond between the reading
stored as `CalculatedAt` and the reading `ExpiresAt` is computed from. -/
def sampleEnvClockAdvances : CalculateScoreEnv :=
  { sampleEnv with nowCalculatedAt := 1000, nowExpiresAt := 1001 }

/-- A request `Validate` accepts that has the lowest sub-score in each of the four
factors. -/
def sampleFloorRequest : dto.CalculateScoreRequest :=
  { UserID := "u3", IncomeAmount := 0, EmploymentStatus := "unemployed", AccountAge := 0,
    TransactionData := [],
    LoanHistory := [{ Amount := 500, Status := "defaulted", PaymentDate := 0 }] }

/-- A request `Validate` accepts that has the highest sub-score in each of the four
factors. -/
def sampleCeilingRequest : dto.CalculateScoreRequest :=
  { UserID := "u4", IncomeAmount := 500000, EmploymentStatus := "employed", AccountAge := 55,
    TransactionData := [],
    LoanHistory := [{ Amount := 500, Status := "paid", PaymentDate := 0 }] }

/-- A request with the highest income, employment and account-age sub-scores and a
loan history of one entry that is not "paid". -/
def sampleUnpaidRequest : dto.CalculateScoreRequest :=
  { UserID := "u5", IncomeAmount := 500000, EmploymentStatus := "employed", AccountAge := 55,
    TransactionData := [],
    LoanHistory := [{ Amount := 500, Status := "defaulted", PaymentDate := 0 }] }

/-- A history environment in which the store read succeeds. -/
def sampleHistoryEnv : GetHistoryEnv :=
  { fault := none }

/-- A history environment in which the query of the store fails. -/
def sampleHistoryEnvFails : GetHistoryEnv :=
  { fault := some (CreditRepository.HistoryFault.query (GoError.driver "connection refused")) }

/-- A handler over the service whose store and cache are empty. -/
def sampleHandler : CreditHandler :=
  { service := sampleService }

/-- A read environment in which the store read fails. -/
def sampleReadEnvStoreFails : GetScoreEnv :=
  { readFault := some (GoError.driver "connection refused"), setFault := none }

/-- A refresh environment in which the cache delete fails and every other call
succeeds. -/
def sampleRefreshEnvDeleteFails : RefreshScoreEnv :=
  { deleteFault := some (GoError.driver "cache down"), read := sampleReadEnv }

/-- A loan history with one "paid" entry out of three. -/
def sampleThirdHistory : List dto.LoanHistoryItem :=
  [{ Amount := 100, Status := "paid", PaymentDate := 1 },
   { Amount := 200, Status := "late", PaymentDate := 2 },
   { Amount := 300, Status := "defaulted", PaymentDate := 3 }]

/-! ## Auxiliary facts -/

/-- Conversion to `int` discards the fractional part: the result is no larger in
magnitude than the argument and less than one away from it. -/
theorem goInt_trunc (x : ℚ) : |((goInt x : Int) : ℚ)| ≤ |x| ∧ |x - (goInt x : Int)| < 1 := by
  unfold goInt
  split_ifs with h
  · have h1 : (⌊x⌋ : ℚ) ≤ x := Int.floor_le x
    have h2 : x < ⌊x⌋ + 1 := Int.lt_floor_add_one x
    have h3 : (0 : ℚ) ≤ ⌊x⌋ := by exact_mod_cast Int.floor_nonneg.mpr h
    rw [abs_of_nonneg h3, abs_of_nonneg h, abs_of_nonneg (by linarith)]
    constructor <;> linarith
  · push_neg at h
    have h1 : x ≤ (⌈x⌉ : ℚ) := Int.le_ceil x
    have h2 : (⌈x⌉ : ℚ) < x + 1 := Int.ceil_lt_add_one x
    have h3 : (⌈x⌉ : ℚ) ≤ 0 := by exact_mod_cast Int.ceil_le.mpr (by simpa using h.le)
    rw [abs_of_nonpos h3, abs_of_neg h, abs_of_nonpos (by linarith)]
    constructor <;> linarith

/-- On a non-negative argument the conversion to `int` is the floor. -/
theorem goInt_of_nonneg {x : ℚ} (h : 0 ≤ x) : goInt x = ⌊x⌋ := by
  simp [goInt, h]

theorem totalScore_range (req : dto.CalculateScoreRequest) :
    300 ≤ totalScore req ∧ totalScore req ≤ 850 := by
  simp only [totalScore]
  split_ifs <;> omega

theorem CalculateScore_result (s : CreditScoringService) (env : CalculateScoreEnv)
    (req : dto.CalculateScoreRequest) :
    (s.CalculateScore env req).1 =
      match env.createFault with
      | some err => .error err
      | none => .ok (builtScore env req) := by
  cases hf : env.createFault <;>
    simp [CalculateScore, CreditRepository.Create, hf, builtScore, totalScore]

theorem totalScore_eq_clamp (req : dto.CalculateScoreRequest) :
    totalScore req =
      min 850 (max 300 (goInt (weightedSum (calculateIncomeScore req.IncomeAmount)
        (calculateEmploymentScore req.EmploymentStatus)
        (calculateAccountAgeScore req.AccountAge)
        (calculateLoanHistoryScore req.LoanHistory)))) := by
  have hw : weightedSum (calculateIncomeScore req.IncomeAmount)
        (calculateEmploymentScore req.EmploymentStatus)
        (calculateAccountAgeScore req.AccountAge)
        (calculateLoanHistoryScore req.LoanHistory) =
      calculateIncomeScore req.IncomeAmount * 0.30 +
      calculateEmploymentScore req.EmploymentStatus * 0.25 +
      calculateAccountAgeScore req.AccountAge * 0.20 +
      calculateLoanHistoryScore req.LoanHistory * 0.25 := by
    unfold weightedSum; ring
  rw [hw]
  simp only [totalScore]
  split_ifs <;> omega

/-! ## C1 -/

/-- C1: when the store write succeeds, `CalculateScore` returns a record whose score is
the weighted sum 0.30*income + 0.25*employment + 0.20*accountAge + 0.25*loanHistory of
the four sub-scores, truncated to an integer `t` (no larger in magnitude than the sum
and less than one away from it) and clamped into [300, 850], so that
300 <= score <= 850; for income 120000, status "employed", account age 24 and one
"paid" loan the sub-scores are 600, 750, 540, 850 and the score is 688. -/
theorem C1_score_truncated_weighted_sum_clamped :
    (∀ (s : CreditScoringService) (env : CalculateScoreEnv) (req : dto.CalculateScoreRequest),
      env.createFault = none →
      ∃ (cs : dto.CreditScore) (t : Int),
        (s.CalculateScore env req).1 = .ok cs ∧
        |(t : ℚ)| ≤ |weightedSum (calculateIncomeScore req.IncomeAmount)
            (calculateEmploymentScore req.EmploymentStatus)
            (calculateAccountAgeScore req.AccountAge)
            (calculateLoanHistoryScore req.LoanHistory)| ∧
        |weightedSum (calculateIncomeScore req.IncomeAmount)
            (calculateEmploymentScore req.EmploymentStatus)
            (calculateAccountAgeScore req.AccountAge)
            (calculateLoanHistoryScore req.LoanHistory) - t| < 1 ∧
        cs.Score = min 850 (max 300 t) ∧ 300 ≤ cs.Score ∧ cs.Score ≤ 850) ∧
    calculateIncomeScore 120000 = 600 ∧
    calculateEmploymentScore "employed" = 750 ∧
    calculateAccountAgeScore 24 = 540 ∧
    (∀ (amount : ℚ) (date : Int),
      calculateLoanHistoryScore [{ Amount := amount, Status := "paid", PaymentDate := date }] = 850) ∧
    (∀ (s : CreditScoringService) (env : CalculateScoreEnv) (userID : String)
        (transactionData : List (String × String)) (amount : ℚ) (date : Int),
      env.createFault = none →
      ∃ cs : dto.CreditScore,
        (s.CalculateScore env
          { UserID := userID, IncomeAmount := 120000, EmploymentStatus := "employed",
            AccountAge := 24, TransactionData := transactionData,
            LoanHistory := [{ Amount := amount, Status := "paid", PaymentDate := date }] }).1 = .ok cs ∧
        cs.Score = 688) := by
  have hI : calculateIncomeScore 120000 = 600 := by norm_num [calculateIncomeScore]
  have hE : calculateEmploymentScore "employed" = 750 := by
    simp [calculateEmploymentScore, goMapIndex, List.lookup]
  have hA : calculateAccountAgeScore 24 = 540 := by norm_num [calculateAccountAgeScore]
  have hL : ∀ (amount : ℚ) (date : Int),
      calculateLoanHistoryScore [{ Amount := amount, Status := "paid", PaymentDate := date }] = 850 := by
    intro amount date
    norm_num [calculateLoanHistoryScore]
  refine ⟨?_, hI, hE, hA, hL, ?_⟩
  · intro s env req hf
    refine ⟨builtScore env req, goInt _, ?_, (goInt_trunc _).1, (goInt_trunc _).2, ?_, ?_⟩
    · rw [CalculateScore_result, hf]
    · exact totalScore_eq_clamp req
    · exact totalScore_range req
  · intro s env userID transactionData amount date hf
    rw [CalculateScore_result, hf]
    refine ⟨_, rfl, ?_⟩
    show totalScore _ = 688
    rw [totalScore_eq_clamp]
    simp only [hI, hE, hA, hL]
    have h688 : goInt (weightedSum 600 750 540 850) = 688 := by
      rw [goInt_of_nonneg (by norm_num [weightedSum])]
      rw [Int.floor_eq_iff]; norm_num [weightedSum]
    rw [h688]; decide

/-- C1 at the sample request of the first scenario. -/
theorem C1_witness :
    sampleEnv.createFault = none ∧
    (∃ cs : dto.CreditScore,
      (sampleService.CalculateScore sampleEnv sampleRequest).1 = .ok cs ∧ cs.Score = 688) ∧
    ∃ cs : dto.CreditScore,
      (sampleService.CalculateScore sampleEnv sampleRequest).1 = .ok cs ∧
      300 ≤ cs.Score ∧ cs.Score ≤ 850 :=
  ⟨rfl,
   C1_score_truncated_weighted_sum_clamped.2.2.2.2.2 sampleService sampleEnv "u1" [] 1000 0 rfl,
   (let ⟨cs, _, hres, _, _, _, hlo, hhi⟩ :=
      C1_score_truncated_weighted_sum_clamped.1 sampleService sampleEnv sampleRequest rfl
    ⟨cs, hres, hlo, hhi⟩)⟩

theorem CalculateScore_state_error (s : CreditScoringService) (env : CalculateScoreEnv)
    (req : dto.CalculateScoreRequest) (err : GoError) (hf : env.createFault = some err) :
    (s.CalculateScore env req).2 =
      { s with calls := s.calls ++ [Call.repoCreate (builtRow env req)] } := by
  simp [CalculateScore, CreditRepository.Create, hf, builtRow, builtScore, totalScore]

theorem CalculateScore_calls_ok (s : CreditScoringService) (env : CalculateScoreEnv)
    (req : dto.CalculateScoreRequest) (hf : env.createFault = none) :
    (s.CalculateScore env req).2.calls =
      s.calls ++
        [Call.repoCreate (builtRow env req),
         Call.cacheSet ("credit_score:" ++ req.UserID) (builtScore env req) (15 * time.Minute),
         Call.publish "credit-scoring-events" (builtEvent env req)] := by
  simp [CalculateScore, CreditRepository.Create, hf, builtRow, builtScore, builtEvent, totalScore]

/-! ## C2 -/

/-- C2: `CalculateScore` returns an error exactly when the store's `Create` fails.  In
that case the result is the store's error itself, the only collaborator call made is
the `Create` (no cache `Set`, no `Publish`), and cache and producer are untouched.
When `Create` succeeds the result is the computed score, the same for every outcome
of the cache `Set` and of the `Publish`, and the calls made are, in this order, the
store write, the cache write (TTL 15 minutes) and the publish. -/
theorem C2_fails_iff_create_fails (s : CreditScoringService) (env : CalculateScoreEnv)
    (req : dto.CalculateScoreRequest) :
    ((∃ err, (s.CalculateScore env req).1 = .error err) ↔ env.createFault ≠ none) ∧
    (∀ err, env.createFault = some err →
      (s.CalculateScore env req).1 = .error err ∧
      (s.CalculateScore env req).2.calls = s.calls ++ [Call.repoCreate (builtRow env req)] ∧
      (s.CalculateScore env req).2.cache = s.cache ∧
      (s.CalculateScore env req).2.producer = s.producer) ∧
    (env.createFault = none →
      (s.CalculateScore env req).1 = .ok (builtScore env req) ∧
      (∀ setFault publishFault : Option GoError,
        (s.CalculateScore { env with setFault := setFault, publishFault := publishFault } req).1 =
          (s.CalculateScore env req).1) ∧
      (s.CalculateScore env req).2.calls =
        s.calls ++
          [Call.repoCreate (builtRow env req),
           Call.cacheSet ("credit_score:" ++ req.UserID) (builtScore env req) (15 * time.Minute),
           Call.publish "credit-scoring-events" (builtEvent env req)]) := by
  refine ⟨?_, ?_, ?_⟩
  · rw [CalculateScore_result]
    cases hf : env.createFault <;> simp
  · intro err hf
    rw [CalculateScore_result, CalculateScore_state_error s env req err hf, hf]
    exact ⟨rfl, rfl, rfl, rfl⟩
  · intro hf
    refine ⟨?_, ?_, CalculateScore_calls_ok s env req hf⟩
    · rw [CalculateScore_result, hf]
    · intro setFault publishFault
      rw [CalculateScore_result, CalculateScore_result, hf]
      simp [hf, builtScore]

/-- C2 at a failing store write, and at a successful one with both advisory calls
failing. -/
theorem C2_witness :
    (sampleService.CalculateScore sampleEnvCreateFails sampleRequest).1 =
        .error (GoError.driver "connection refused") ∧
    (sampleService.CalculateScore sampleEnvCreateFails sampleRequest).2.calls =
        [Call.repoCreate (builtRow sampleEnvCreateFails sampleRequest)] ∧
    (sampleService.CalculateScore sampleEnvAdvisoryFail sampleRequest).1 =
        .ok (builtScore sampleEnvAdvisoryFail sampleRequest) :=
  ⟨((C2_fails_iff_create_fails sampleService sampleEnvCreateFails sampleRequest).2.1
      (GoError.driver "connection refused") rfl).1,
   ((C2_fails_iff_create_fails sampleService sampleEnvCreateFails sampleRequest).2.1
      (GoError.driver "connection refused") rfl).2.1,
   ((C2_fails_iff_create_fails sampleService sampleEnvAdvisoryFail sampleRequest).2.2 rfl).1⟩

/-! ## The store's latest row and the cache -/

theorem pickLater_ne_none (acc : Option model.CreditScore) (r : model.CreditScore) :
    CreditRepository.pickLater acc r ≠ none := by
  cases acc with
  | none => simp [CreditRepository.pickLater]
  | some b =>
    simp only [CreditRepository.pickLater]
    split_ifs <;> simp

theorem foldl_pickLater (l : List model.CreditScore) :
    ∀ acc : Option model.CreditScore,
      match l.foldl CreditRepository.pickLater acc with
      | none => acc = none ∧ l = []
      | some x =>
        (x ∈ l ∨ acc = some x) ∧ (∀ y ∈ l, y.CalculatedAt ≤ x.CalculatedAt) ∧
          (∀ a, acc = some a → a.CalculatedAt ≤ x.CalculatedAt) := by
  induction l with
  | nil =>
    intro acc
    cases acc <;> simp
  | cons r rest ih =>
    intro acc
    have h := ih (CreditRepository.pickLater acc r)
    simp only [List.foldl_cons]
    cases hres : List.foldl CreditRepository.pickLater (CreditRepository.pickLater acc r) rest with
    | none =>
      rw [hres] at h
      exact absurd h.1 (pickLater_ne_none acc r)
    | some x =>
      rw [hres] at h
      obtain ⟨h1, h2, h3⟩ := h
      cases acc with
      | none =>
        simp only [CreditRepository.pickLater] at h1 h3
        refine ⟨?_, ?_, by simp⟩
        · rcases h1 with h1 | h1
          · exact Or.inl (List.mem_cons_of_mem _ h1)
          · left; simp only [Option.some.injEq] at h1; simp [h1]
        · intro y hy
          rcases List.mem_cons.mp hy with rfl | hy
          · exact h3 y rfl
          · exact h2 y hy
      | some a =>
        simp only [CreditRepository.pickLater] at h1 h3
        by_cases hlt : a.CalculatedAt < r.CalculatedAt
        · simp only [hlt, if_true] at h1 h3
          refine ⟨?_, ?_, ?_⟩
          · rcases h1 with h1 | h1
            · exact Or.inl (List.mem_cons_of_mem _ h1)
            · left; simp only [Option.some.injEq] at h1; simp [h1]
          · intro y hy
            rcases List.mem_cons.mp hy with rfl | hy
            · exact h3 y rfl
            · exact h2 y hy
          · intro b hb
            simp only [Option.some.injEq] at hb
            subst hb
            have := h3 r rfl
            omega
        · simp only [hlt, if_false] at h1 h3
          refine ⟨?_, ?_, ?_⟩
          · rcases h1 with h1 | h1
            · exact Or.inl (List.mem_cons_of_mem _ h1)
            · exact Or.inr h1
          · intro y hy
            rcases List.mem_cons.mp hy with rfl | hy
            · have := h3 a rfl
              omega
            · exact h2 y hy
          · intro b hb
            simp only [Option.some.injEq] at hb
            subst hb
            exact h3 a rfl

theorem queryLatest_eq_none_iff (rows : List model.CreditScore) (userID : String) :
    CreditRepository.queryLatest rows userID = none ↔ ∀ r ∈ rows, r.UserID ≠ userID := by
  have h := foldl_pickLater (rows.filter (fun row => row.UserID = userID)) none
  unfold CreditRepository.queryLatest
  constructor
  · intro hn
    rw [hn] at h
    have := h.2
    intro r hr hu
    have hm : r ∈ rows.filter (fun row => row.UserID = userID) := by
      simp [List.mem_filter, hr, hu]
    rw [this] at hm
    exact absurd hm (List.not_mem_nil _)
  · intro hall
    have hnil : rows.filter (fun row => row.UserID = userID) = [] := by
      simp only [List.filter_eq_nil_iff, decide_eq_true_eq]
      exact hall
    rw [hnil]; rfl

theorem queryLatest_some (rows : List model.CreditScore) (userID : String)
    (x : model.CreditScore) (hx : CreditRepository.queryLatest rows userID = some x) :
    x ∈ rows ∧ x.UserID = userID ∧
      ∀ r ∈ rows, r.UserID = userID → r.CalculatedAt ≤ x.CalculatedAt := by
  have h := foldl_pickLater (rows.filter (fun row => row.UserID = userID)) none
  unfold CreditRepository.queryLatest at hx
  rw [hx] at h
  obtain ⟨h1, h2, -⟩ := h
  have hmem : x ∈ rows.filter (fun row => row.UserID = userID) := by
    rcases h1 with h1 | h1
    · exact h1
    · exact absurd h1 (by simp)
  rw [List.mem_filter] at hmem
  refine ⟨hmem.1, by simpa using hmem.2, ?_⟩
  intro r hr hu
  exact h2 r (by simp [List.mem_filter, hr, hu])

theorem lookup_filter_ne (key : String) (l : List (String × dto.CreditScore × Int)) :
    (l.filter (fun e => e.1 ≠ key)).lookup key = none := by
  induction l with
  | nil => rfl
  | cons e rest ih =>
    by_cases h : e.1 = key
    · have hd : decide (e.1 ≠ key) = false := by simp [h]
      rw [List.filter_cons, hd]
      simp only [Bool.false_eq_true, if_false]
      exact ih
    · have hd : decide (e.1 ≠ key) = true := by simp [h]
      have hk : (key == e.1) = false := by
        simpa using fun hh : key = e.1 => h hh.symm
      rw [List.filter_cons, hd]
      simp only [if_true]
      obtain ⟨k, v⟩ := e
      simp only [List.lookup, hk]
      exact ih

theorem Get_Set_ok (c : RedisClient) (key : String) (v : dto.CreditScore) (ttl : Int) :
    (c.Set key v ttl none).1.Get key = some v := by
  simp [RedisClient.Set, RedisClient.Get, List.lookup]

theorem Get_Delete_ok (c : RedisClient) (key : String) :
    (c.Delete key none).1.Get key = none := by
  simp only [RedisClient.Delete, RedisClient.Get]
  rw [lookup_filter_ne]

theorem GetScore_hit (s : CreditScoringService) (env : GetScoreEnv) (userID : String)
    (v : dto.CreditScore) (h : s.cache.Get ("credit_score:" ++ userID) = some v) :
    s.GetScore env userID =
      (.ok v, { s with calls := s.calls ++ [Call.cacheGet ("credit_score:" ++ userID)] }) := by
  simp [GetScore, h]

theorem GetScore_miss_ok (s : CreditScoringService) (env : GetScoreEnv) (userID : String)
    (row : model.CreditScore) (h : s.cache.Get ("credit_score:" ++ userID) = none)
    (hrow : s.repo.GetLatestByUserID userID env.readFault = .ok row) :
    s.GetScore env userID =
      (.ok (dtoOf row),
       { s with
         cache :=
           (s.cache.Set ("credit_score:" ++ userID) (dtoOf row) (15 * time.Minute) env.setFault).1
         calls := s.calls ++
           [Call.cacheGet ("credit_score:" ++ userID), Call.repoGetLatest userID,
            Call.cacheSet ("credit_score:" ++ userID) (dtoOf row) (15 * time.Minute)] }) := by
  simp [GetScore, h, hrow, dtoOf]

theorem GetScore_miss_error (s : CreditScoringService) (env : GetScoreEnv) (userID : String)
    (err : GoError) (h : s.cache.Get ("credit_score:" ++ userID) = none)
    (hrow : s.repo.GetLatestByUserID userID env.readFault = .error err) :
    s.GetScore env userID =
      (.error err,
       { s with
         calls := s.calls ++
           [Call.cacheGet ("credit_score:" ++ userID), Call.repoGetLatest userID] }) := by
  simp [GetScore, h, hrow]

theorem GetLatestByUserID_found (r : CreditRepository) (userID : String)
    (h : ∃ row ∈ r.db, row.UserID = userID) :
    ∃ row, r.GetLatestByUserID userID none = .ok row ∧ row ∈ r.db ∧ row.UserID = userID ∧
      ∀ x ∈ r.db, x.UserID = userID → x.CalculatedAt ≤ row.CalculatedAt := by
  cases hq : CreditRepository.queryLatest r.db userID with
  | none =>
    obtain ⟨row, hmem, hu⟩ := h
    exact absurd hu ((queryLatest_eq_none_iff r.db userID).mp hq row hmem)
  | some row =>
    refine ⟨row, ?_, queryLatest_some r.db userID row hq⟩
    simp [CreditRepository.GetLatestByUserID, CreditRepository.scanLatest, hq]

theorem GetLatestByUserID_not_found (r : CreditRepository) (userID : String)
    (h : ∀ row ∈ r.db, row.UserID ≠ userID) :
    r.GetLatestByUserID userID none = .error CreditRepository.ErrNotFound := by
  have hq := (queryLatest_eq_none_iff r.db userID).mpr h
  simp [CreditRepository.GetLatestByUserID, CreditRepository.scanLatest, hq]

/-! ## C3 -/

/-- C3: `GetScore` is a cache-aside read under the key "credit_score:" + userId.
(1) When the cache holds an entry under the key, that entry is returned and the only
collaborator call is the cache `Get`: the store is not read and the cache is not
written.  (2) On a miss, when the store read goes through and the user has a record,
the result is the store's latest row for the user (a row of the user whose calculation
time is greatest) with id, user, score, grade, factors, recommendation, calculated-at
and expires-at copied unchanged; the calls are cache `Get`, store read, then cache
`Set` of the returned score under the key with a TTL of 15 minutes; the result is the
same whatever the outcome of that `Set`, and after a successful `Set` the cache holds
the returned score.  (3) On a miss, when the user has no record, the result is the
store's not-found error and the cache is not written. -/
theorem C3_GetScore_cache_aside (s : CreditScoringService) (env : GetScoreEnv)
    (userID : String) :
    (∀ v : dto.CreditScore, s.cache.Get ("credit_score:" ++ userID) = some v →
      (s.GetScore env userID).1 = .ok v ∧
      (s.GetScore env userID).2.calls =
        s.calls ++ [Call.cacheGet ("credit_score:" ++ userID)] ∧
      (s.GetScore env userID).2.cache = s.cache) ∧
    (s.cache.Get ("credit_score:" ++ userID) = none → env.readFault = none →
      (∃ r ∈ s.repo.db, r.UserID = userID) →
      ∃ (row : model.CreditScore) (cs : dto.CreditScore),
        row ∈ s.repo.db ∧ row.UserID = userID ∧
        (∀ r ∈ s.repo.db, r.UserID = userID → r.CalculatedAt ≤ row.CalculatedAt) ∧
        s.repo.GetLatestByUserID userID none = .ok row ∧
        (s.GetScore env userID).1 = .ok cs ∧
        cs.ID = row.ID ∧ cs.UserID = row.UserID ∧ cs.Score = row.Score ∧
        cs.Grade = row.Grade ∧ cs.Factors = row.Factors ∧
        cs.Recommendation = row.Recommendation ∧ cs.CalculatedAt = row.CalculatedAt ∧
        cs.ExpiresAt = row.ExpiresAt ∧
        (s.GetScore env userID).2.calls =
          s.calls ++
            [Call.cacheGet ("credit_score:" ++ userID), Call.repoGetLatest userID,
             Call.cacheSet ("credit_score:" ++ userID) cs (15 * 60 * 1000000000)] ∧
        (∀ setFault : Option GoError,
          (s.GetScore { env with setFault := setFault } userID).1 = .ok cs) ∧
        (env.setFault = none →
          (s.GetScore env userID).2.cache.Get ("credit_score:" ++ userID) = some cs)) ∧
    (s.cache.Get ("credit_score:" ++ userID) = none → env.readFault = none →
      (∀ r ∈ s.repo.db, r.UserID ≠ userID) →
      (s.GetScore env userID).1 = .error CreditRepository.ErrNotFound ∧
      (s.GetScore env userID).2.calls =
        s.calls ++ [Call.cacheGet ("credit_score:" ++ userID), Call.repoGetLatest userID] ∧
      (s.GetScore env userID).2.cache = s.cache) := by
  refine ⟨?_, ?_, ?_⟩
  · intro v hv
    rw [GetScore_hit s env userID v hv]
    exact ⟨rfl, rfl, rfl⟩
  · intro hmiss hread hrec
    obtain ⟨row, hrow, hmem, huser, hmax⟩ := GetLatestByUserID_found s.repo userID hrec
    have hrow1 : s.repo.GetLatestByUserID userID env.readFault = .ok row := by
      rw [hread]; exact hrow
    refine ⟨row, dtoOf row, hmem, huser, hmax, hrow, ?_, rfl, rfl, rfl, rfl, rfl, rfl, rfl, rfl,
      ?_, ?_, ?_⟩
    · rw [GetScore_miss_ok s env userID row hmiss hrow1]
    · rw [GetScore_miss_ok s env userID row hmiss hrow1]
      simp [time.Minute, time.Second]
    · intro setFault
      rw [GetScore_miss_ok s { env with setFault := setFault } userID row hmiss hrow1]
    · intro hset
      rw [GetScore_miss_ok s env userID row hmiss hrow1, hset]
      exact Get_Set_ok s.cache _ _ _
  · intro hmiss hread hnone
    have herr : s.repo.GetLatestByUserID userID env.readFault =
        .error CreditRepository.ErrNotFound := by
      rw [hread]; exact GetLatestByUserID_not_found s.repo userID hnone
    rw [GetScore_miss_error s env userID _ hmiss herr]
    exact ⟨rfl, rfl, rfl⟩

/-- C3 at a cache that holds an entry, at a miss with two stored rows, and at a miss
with an empty store. -/
theorem C3_witness :
    (sampleStale.GetScore sampleReadEnv "u1").1 = .ok (dtoOf sampleOlderRow) ∧
    (∃ (row : model.CreditScore) (cs : dto.CreditScore),
      row ∈ sampleStored.repo.db ∧ (sampleStored.GetScore sampleReadEnv "u1").1 = .ok cs ∧
      cs.Score = row.Score) ∧
    (sampleService.GetScore sampleReadEnv "u1").1 = .error CreditRepository.ErrNotFound :=
  ⟨((C3_GetScore_cache_aside sampleStale sampleReadEnv "u1").1 (dtoOf sampleOlderRow)
      (by decide)).1,
   (let ⟨row, cs, hmem, _, _, _, hres, _, _, hscore, _⟩ :=
      (C3_GetScore_cache_aside sampleStored sampleReadEnv "u1").2.1 (by decide) rfl
        ⟨sampleRow, by decide, rfl⟩
    ⟨row, cs, hmem, hres, hscore⟩),
   ((C3_GetScore_cache_aside sampleService sampleReadEnv "u1").2.2 (by decide) rfl
      (by decide)).1⟩

/-! ## C4 -/

theorem RefreshScore_entry_gone (s : CreditScoringService)
    (env : RefreshScoreEnv) (userID : String)
    (hgone : (s.cache.Delete ("credit_score:" ++ userID) env.deleteFault).1.Get
      ("credit_score:" ++ userID) = none)
    (hread : env.read.readFault = none)
    (hrec : ∃ r ∈ s.repo.db, r.UserID = userID) :
    ∃ row : model.CreditScore,
      s.repo.GetLatestByUserID userID none = .ok row ∧
      row ∈ s.repo.db ∧ row.UserID = userID ∧
      (∀ r ∈ s.repo.db, r.UserID = userID → r.CalculatedAt ≤ row.CalculatedAt) ∧
      (s.cache.Delete ("credit_score:" ++ userID) env.deleteFault).1.Get
        ("credit_score:" ++ userID) = none ∧
      (s.RefreshScore env userID).1 = .ok (dtoOf row) ∧
      (s.RefreshScore env userID).2.calls =
        s.calls ++
          [Call.cacheDelete ("credit_score:" ++ userID),
           Call.cacheGet ("credit_score:" ++ userID), Call.repoGetLatest userID,
           Call.cacheSet ("credit_score:" ++ userID) (dtoOf row) (15 * time.Minute)] ∧
      (s.RefreshScore env userID).2.repo = s.repo ∧
      (s.RefreshScore env userID).2.producer = s.producer ∧
      ∀ env2 : GetScoreEnv, env2.readFault = none →
        ((s.RefreshScore env userID).2.GetScore env2 userID).1 = .ok (dtoOf row) := by
  obtain ⟨row, hrow, hmem, huser, hmax⟩ := GetLatestByUserID_found s.repo userID hrec
  have hrow1 : s.repo.GetLatestByUserID userID env.read.readFault = .ok row := by
    rw [hread]; exact hrow
  have hrefresh : s.RefreshScore env userID =
      (.ok (dtoOf row),
       { s with
         cache :=
           ((s.cache.Delete ("credit_score:" ++ userID) env.deleteFault).1.Set
             ("credit_score:" ++ userID) (dtoOf row) (15 * time.Minute) env.read.setFault).1
         calls := s.calls ++
           [Call.cacheDelete ("credit_score:" ++ userID),
            Call.cacheGet ("credit_score:" ++ userID), Call.repoGetLatest userID,
            Call.cacheSet ("credit_score:" ++ userID) (dtoOf row) (15 * time.Minute)] }) := by
    have hget := GetScore_miss_ok
      { repo := s.repo
        cache := (s.cache.Delete ("credit_score:" ++ userID) env.deleteFault).1
        producer := s.producer
        calls := s.calls ++ [Call.cacheDelete ("credit_score:" ++ userID)] }
      env.read userID row hgone hrow1
    unfold RefreshScore
    simp only []
    rw [hget]
    simp
  refine ⟨row, hrow, hmem, huser, hmax, hgone, ?_, ?_, ?_, ?_, ?_⟩
  · rw [hrefresh]
  · rw [hrefresh]
  · rw [hrefresh]
  · rw [hrefresh]
  · intro env2 hread2
    have hrepo : (s.RefreshScore env userID).2.repo = s.repo := by rw [hrefresh]
    have hcache : (s.RefreshScore env userID).2.cache =
        ((s.cache.Delete ("credit_score:" ++ userID) env.deleteFault).1.Set
          ("credit_score:" ++ userID) (dtoOf row) (15 * time.Minute) env.read.setFault).1 := by
      rw [hrefresh]
    cases hset : env.read.setFault with
    | none =>
      have hhit : (s.RefreshScore env userID).2.cache.Get ("credit_score:" ++ userID) =
          some (dtoOf row) := by
        rw [hcache, hset]; exact Get_Set_ok _ _ _ _
      rw [GetScore_hit (s.RefreshScore env userID).2 env2 userID (dtoOf row) hhit]
    | some err =>
      have hmiss : (s.RefreshScore env userID).2.cache.Get ("credit_score:" ++ userID) =
          none := by
        rw [hcache, hset]; exact hgone
      have hrow2 : (s.RefreshScore env userID).2.repo.GetLatestByUserID userID
          env2.readFault = .ok row := by
        rw [hrepo, hread2]; exact hrow
      rw [GetScore_miss_ok (s.RefreshScore env userID).2 env2 userID row hmiss hrow2]

theorem Get_Delete_fault (c : RedisClient) (key : String) (err : GoError) :
    (c.Delete key (some err)).1 = c := rfl

theorem RefreshScore_delete_failed_hit (s : CreditScoringService) (env : RefreshScoreEnv)
    (userID : String) (err : GoError) (v : dto.CreditScore)
    (hdel : env.deleteFault = some err)
    (hheld : s.cache.Get ("credit_score:" ++ userID) = some v) :
    s.RefreshScore env userID =
      (.ok v,
       { s with
         calls := s.calls ++
           [Call.cacheDelete ("credit_score:" ++ userID),
            Call.cacheGet ("credit_score:" ++ userID)] }) := by
  have hget := GetScore_hit
    { repo := s.repo
      cache := (s.cache.Delete ("credit_score:" ++ userID) env.deleteFault).1
      producer := s.producer
      calls := s.calls ++ [Call.cacheDelete ("credit_score:" ++ userID)] }
    env.read userID v (by rw [hdel, Get_Delete_fault]; exact hheld)
  unfold RefreshScore
  simp only []
  rw [hget, hdel, Get_Delete_fault]
  simp

/-- C4, amended: for a user with at least one stored record and any prior cache state,
when the store read goes through and the cache `Delete` takes effect (it succeeds, or
the cache holds no entry under the user's key), `RefreshScore` leaves no entry under the
key before it reads, and returns the store's latest record for the user.  It makes
exactly the calls cache `Delete`, cache `Get`, store read, cache `Set` (no store
write, no publish), leaves the store and the producer as they were, and a `GetScore`
made on the resulting state returns that same record, whatever the outcome of the
cache `Set`.  When the `Delete` fails while the cache holds an entry under the key,
the error is discarded and `RefreshScore` returns that entry: the calls are cache
`Delete` and cache `Get` only, and store, producer and cache stay as they were. -/
theorem C4_RefreshScore_latest_when_delete_takes_effect (s : CreditScoringService)
    (env : RefreshScoreEnv) (userID : String) :
    ((env.deleteFault = none ∨ s.cache.Get ("credit_score:" ++ userID) = none) →
      env.read.readFault = none →
      (∃ r ∈ s.repo.db, r.UserID = userID) →
      ∃ row : model.CreditScore,
        s.repo.GetLatestByUserID userID none = .ok row ∧
        row ∈ s.repo.db ∧ row.UserID = userID ∧
        (∀ r ∈ s.repo.db, r.UserID = userID → r.CalculatedAt ≤ row.CalculatedAt) ∧
        (s.cache.Delete ("credit_score:" ++ userID) env.deleteFault).1.Get
          ("credit_score:" ++ userID) = none ∧
        (s.RefreshScore env userID).1 = .ok (dtoOf row) ∧
        (s.RefreshScore env userID).2.calls =
          s.calls ++
            [Call.cacheDelete ("credit_score:" ++ userID),
             Call.cacheGet ("credit_score:" ++ userID), Call.repoGetLatest userID,
             Call.cacheSet ("credit_score:" ++ userID) (dtoOf row) (15 * time.Minute)] ∧
        (s.RefreshScore env userID).2.repo = s.repo ∧
        (s.RefreshScore env userID).2.producer = s.producer ∧
        ∀ env2 : GetScoreEnv, env2.readFault = none →
          ((s.RefreshScore env userID).2.GetScore env2 userID).1 = .ok (dtoOf row)) ∧
    (∀ (err : GoError) (v : dto.CreditScore),
      env.deleteFault = some err → s.cache.Get ("credit_score:" ++ userID) = some v →
      (s.RefreshScore env userID).1 = .ok v ∧
      (s.RefreshScore env userID).2.calls =
        s.calls ++
          [Call.cacheDelete ("credit_score:" ++ userID),
           Call.cacheGet ("credit_score:" ++ userID)] ∧
      (s.RefreshScore env userID).2.repo = s.repo ∧
      (s.RefreshScore env userID).2.producer = s.producer ∧
      (s.RefreshScore env userID).2.cache = s.cache) := by
  refine ⟨?_, ?_⟩
  · intro heff hread hrec
    have hgone : (s.cache.Delete ("credit_score:" ++ userID) env.deleteFault).1.Get
        ("credit_score:" ++ userID) = none := by
      rcases heff with hdel | hnone
      · rw [hdel]; exact Get_Delete_ok s.cache _
      · cases hd : env.deleteFault with
        | none => exact Get_Delete_ok s.cache _
        | some err => rw [Get_Delete_fault]; exact hnone
    exact RefreshScore_entry_gone s env userID hgone hread hrec
  · intro err v hdel hheld
    rw [RefreshScore_delete_failed_hit s env userID err v hdel hheld]
    exact ⟨rfl, rfl, rfl, rfl, rfl⟩

/-- C4, amended, at a service whose cache holds a stale entry for the user: with a
successful delete the latest stored record comes back, with a failing delete the
stale entry. -/
theorem C4_witness :
    (∃ row : model.CreditScore,
      sampleStale.repo.GetLatestByUserID "u1" none = .ok row ∧
      (sampleStale.RefreshScore sampleRefreshEnv "u1").1 = .ok (dtoOf row) ∧
      ((sampleStale.RefreshScore sampleRefreshEnv "u1").2.GetScore sampleReadEnv "u1").1 =
        .ok (dtoOf row)) ∧
    (sampleStale.RefreshScore sampleRefreshEnvDeleteFails "u1").1 =
      .ok (dtoOf sampleOlderRow) :=
  ⟨(let ⟨row, hrow, _, _, _, _, hres, _, _, _, hnext⟩ :=
      (C4_RefreshScore_latest_when_delete_takes_effect sampleStale sampleRefreshEnv "u1").1
        (Or.inl rfl) rfl ⟨sampleRow, by decide, rfl⟩
    ⟨row, hrow, hres, hnext sampleReadEnv rfl⟩),
   ((C4_RefreshScore_latest_when_delete_takes_effect sampleStale
      sampleRefreshEnvDeleteFails "u1").2 (GoError.driver "cache down")
      (dtoOf sampleOlderRow) rfl (by decide)).1⟩

/-- C4 as stated fails on the code: user `u1` has two stored records, the store's
latest is the one of score 688, the cache holds the earlier one of score 366 and the
cache `Delete` fails.  `RefreshScore` returns the cached record of score 366 with no
error, the entry is still in the cache afterwards, and a `GetScore` made immediately
afterwards returns it again. -/
theorem C4_failed_delete_returns_stale_entry :
    (∃ r ∈ sampleStale.repo.db, r.UserID = "u1") ∧
    sampleStale.repo.GetLatestByUserID "u1" none = .ok sampleRow ∧
    (sampleStale.RefreshScore sampleRefreshEnvDeleteFails "u1").1 =
      .ok (dtoOf sampleOlderRow) ∧
    dtoOf sampleOlderRow ≠ dtoOf sampleRow ∧
    (sampleStale.RefreshScore sampleRefreshEnvDeleteFails "u1").2.cache.Get
      ("credit_score:" ++ "u1") = some (dtoOf sampleOlderRow) ∧
    ((sampleStale.RefreshScore sampleRefreshEnvDeleteFails "u1").2.GetScore
      sampleReadEnv "u1").1 = .ok (dtoOf sampleOlderRow) :=
  ⟨⟨sampleRow, by decide, rfl⟩, rfl, rfl, by decide, by decide, rfl⟩

/-! ## Grades, recommendations, factors -/

theorem generateRecommendation_of_grade (score : Int) :
    generateRecommendation score = recommendationOfGrade (getGrade score) := by
  simp only [generateRecommendation, getGrade, recommendationOfGrade]
  split_ifs <;> first | rfl | omega | (exfalso; simp_all)

theorem getGrade_cases (score : Int) :
    (getGrade score = "Excellent" ↔ 800 ≤ score) ∧
    (getGrade score = "Very Good" ↔ 740 ≤ score ∧ score < 800) ∧
    (getGrade score = "Good" ↔ 670 ≤ score ∧ score < 740) ∧
    (getGrade score = "Fair" ↔ 580 ≤ score ∧ score < 670) ∧
    (getGrade score = "Poor" ↔ score < 580) := by
  simp only [getGrade]
  split_ifs <;> simp <;> omega

/-! ## C5 -/

/-- C5: the grade is "Excellent" exactly for score >= 800, "Very Good" for
740 <= score < 800, "Good" for 670 <= score < 740, "Fair" for 580 <= score < 670 and
"Poor" below 580; two scores with the same grade have the same recommendation; in the
record `CalculateScore` returns, grade and recommendation are `getGrade` and
`generateRecommendation` of the record's score; score 688 has grade "Good" and
recommendation "Good credit profile. Eligible for competitive rates.". -/
theorem C5_grade_and_recommendation_from_score :
    (∀ score : Int,
      (getGrade score = "Excellent" ↔ 800 ≤ score) ∧
      (getGrade score = "Very Good" ↔ 740 ≤ score ∧ score < 800) ∧
      (getGrade score = "Good" ↔ 670 ≤ score ∧ score < 740) ∧
      (getGrade score = "Fair" ↔ 580 ≤ score ∧ score < 670) ∧
      (getGrade score = "Poor" ↔ score < 580)) ∧
    (∀ a b : Int, getGrade a = getGrade b →
      generateRecommendation a = generateRecommendation b) ∧
    (∀ (s : CreditScoringService) (env : CalculateScoreEnv) (req : dto.CalculateScoreRequest),
      env.createFault = none →
      ∃ cs : dto.CreditScore,
        (s.CalculateScore env req).1 = .ok cs ∧ cs.Grade = getGrade cs.Score ∧
        cs.Recommendation = generateRecommendation cs.Score) ∧
    getGrade 688 = "Good" ∧
    generateRecommendation 688 = "Good credit profile. Eligible for competitive rates." := by
  refine ⟨getGrade_cases, ?_, ?_, by decide, by decide⟩
  · intro a b h
    rw [generateRecommendation_of_grade a, generateRecommendation_of_grade b, h]
  · intro s env req hf
    rw [CalculateScore_result, hf]
    exact ⟨_, rfl, rfl, rfl⟩

/-- C5 at the scores 750 and 799 and at the sample request. -/
theorem C5_witness :
    getGrade 750 = getGrade 799 ∧ generateRecommendation 750 = generateRecommendation 799 ∧
    ∃ cs : dto.CreditScore,
      (sampleService.CalculateScore sampleEnv sampleRequest).1 = .ok cs ∧
      cs.Grade = getGrade cs.Score ∧ cs.Recommendation = generateRecommendation cs.Score :=
  ⟨by decide, C5_grade_and_recommendation_from_score.2.1 750 799 (by decide),
   C5_grade_and_recommendation_from_score.2.2.1 sampleService sampleEnv sampleRequest rfl⟩

theorem generateFactors_eq (req : dto.CalculateScoreRequest) (score : Int) :
    generateFactors req score =
      (if req.IncomeAmount < 100000 then ["Low income level"] else []) ++
      (if req.AccountAge < 12 then ["Short account history"] else []) ++
      (if req.EmploymentStatus = "unemployed" then ["Current unemployment"] else []) ++
      (if 700 ≤ score then ["Strong payment history", "Good financial stability"] else []) := by
  simp only [generateFactors]
  split_ifs <;> simp

/-! ## C6 -/

/-- C6: `generateFactors` returns the texts "Low income level", "Short account history",
"Current unemployment", "Strong payment history", "Good financial stability", in that
order, each present exactly when its condition holds: income < 100000, account
age < 12, status = "unemployed", and score >= 700 for the last two together; the list
is a sub-sequence of the five texts and a function of the request and the score.  The
factors of the record `CalculateScore` returns are `generateFactors` of the request and
the record's score.  For income 10000, status "unemployed", account age 2 and an empty
loan history the score is 366, the grade "Poor" and the factors are the first three
texts. -/
theorem C6_factors_by_independent_checks :
    (∀ (req : dto.CalculateScoreRequest) (score : Int),
      generateFactors req score =
        (if req.IncomeAmount < 100000 then ["Low income level"] else []) ++
        (if req.AccountAge < 12 then ["Short account history"] else []) ++
        (if req.EmploymentStatus = "unemployed" then ["Current unemployment"] else []) ++
        (if 700 ≤ score then ["Strong payment history", "Good financial stability"]
          else []) ∧
      (generateFactors req score).Sublist
        ["Low income level", "Short account history", "Current unemployment",
         "Strong payment history", "Good financial stability"] ∧
      ("Low income level" ∈ generateFactors req score ↔ req.IncomeAmount < 100000) ∧
      ("Short account history" ∈ generateFactors req score ↔ req.AccountAge < 12) ∧
      ("Current unemployment" ∈ generateFactors req score ↔
        req.EmploymentStatus = "unemployed") ∧
      ("Strong payment history" ∈ generateFactors req score ↔ 700 ≤ score) ∧
      ("Good financial stability" ∈ generateFactors req score ↔ 700 ≤ score)) ∧
    (∀ (s : CreditScoringService) (env : CalculateScoreEnv) (req : dto.CalculateScoreRequest),
      env.createFault = none →
      ∃ cs : dto.CreditScore,
        (s.CalculateScore env req).1 = .ok cs ∧ cs.Factors = generateFactors req cs.Score) ∧
    (∀ (s : CreditScoringService) (env : CalculateScoreEnv) (userID : String)
        (transactionData : List (String × String)),
      env.createFault = none →
      ∃ cs : dto.CreditScore,
        (s.CalculateScore env
          { UserID := userID, IncomeAmount := 10000, EmploymentStatus := "unemployed",
            AccountAge := 2, TransactionData := transactionData, LoanHistory := [] }).1 =
          .ok cs ∧
        cs.Score = 366 ∧ cs.Grade = "Poor" ∧
        cs.Factors = ["Low income level", "Short account history", "Current unemployment"]) := by
  refine ⟨?_, ?_, ?_⟩
  · intro req score
    refine ⟨generateFactors_eq req score, ?_, ?_, ?_, ?_, ?_, ?_⟩
    · rw [generateFactors_eq]
      split_ifs <;> decide
    all_goals
      rw [generateFactors_eq]
      split_ifs <;> simp_all
  · intro s env req hf
    rw [CalculateScore_result, hf]
    exact ⟨_, rfl, rfl⟩
  · intro s env userID transactionData hf
    rw [CalculateScore_result, hf]
    have hI : calculateIncomeScore 10000 = 300 := by norm_num [calculateIncomeScore]
    have hE : calculateEmploymentScore "unemployed" = 350 := by
      simp [calculateEmploymentScore, goMapIndex, List.lookup]
    have hA : calculateAccountAgeScore 2 = 320 := by norm_num [calculateAccountAgeScore]
    have hL : calculateLoanHistoryScore [] = 500 := by simp [calculateLoanHistoryScore]
    have hscore : totalScore
        { UserID := userID, IncomeAmount := 10000, EmploymentStatus := "unemployed",
          AccountAge := 2, TransactionData := transactionData, LoanHistory := [] } = 366 := by
      rw [totalScore_eq_clamp]
      simp only [hI, hE, hA, hL]
      have h366 : goInt (weightedSum 300 350 320 500) = 366 := by
        rw [goInt_of_nonneg (by norm_num [weightedSum])]
        rw [Int.floor_eq_iff]; norm_num [weightedSum]
      rw [h366]; decide
    refine ⟨_, rfl, hscore, ?_, ?_⟩
    · show getGrade (totalScore _) = "Poor"
      rw [hscore]; decide
    · show generateFactors _ (totalScore _) = _
      rw [hscore, generateFactors_eq]
      norm_num

/-- C6 at the request of the second scenario and at the sample request. -/
theorem C6_witness :
    (∃ cs : dto.CreditScore,
      (sampleService.CalculateScore sampleEnv sampleLowRequest).1 = .ok cs ∧
      cs.Score = 366 ∧ cs.Grade = "Poor" ∧
      cs.Factors = ["Low income level", "Short account history", "Current unemployment"]) ∧
    ∃ cs : dto.CreditScore,
      (sampleService.CalculateScore sampleEnv sampleRequest).1 = .ok cs ∧
      cs.Factors = generateFactors sampleRequest cs.Score :=
  ⟨C6_factors_by_independent_checks.2.2 sampleService sampleEnv "u2" [] rfl,
   C6_factors_by_independent_checks.2.1 sampleService sampleEnv sampleRequest rfl⟩

/-! ## Sub-scores -/

theorem foldl_paid_count (history : List dto.LoanHistoryItem) :
    ∀ k : Nat,
      history.foldl (fun n loan => if loan.Status = "paid" then n + 1 else n) k =
        k + history.countP (fun loan => loan.Status = "paid") := by
  induction history with
  | nil => intro k; simp
  | cons loan rest ih =>
    intro k
    simp only [List.foldl_cons, List.countP_cons, ih]
    by_cases h : loan.Status = "paid"
    · simp [h]; omega
    · simp [h]

theorem calculateLoanHistoryScore_ratio (history : List dto.LoanHistoryItem)
    (h : history ≠ []) :
    calculateLoanHistoryScore history =
      300 + ((history.countP (fun loan => loan.Status = "paid") : ℚ) / (history.length : ℚ)) *
        550 := by
  have hlen : history.length ≠ 0 := by
    simpa [List.length_eq_zero] using h
  simp only [calculateLoanHistoryScore, hlen, if_false, foldl_paid_count, Nat.zero_add]

theorem calculateIncomeScore_bands (income : ℚ) :
    (income < 50000 → calculateIncomeScore income = 300) ∧
    (50000 ≤ income → income < 100000 → calculateIncomeScore income = 450) ∧
    (100000 ≤ income → income < 200000 → calculateIncomeScore income = 600) ∧
    (200000 ≤ income → income < 500000 → calculateIncomeScore income = 750) ∧
    (500000 ≤ income → calculateIncomeScore income = 850) := by
  simp only [calculateIncomeScore]
  refine ⟨?_, ?_, ?_, ?_, ?_⟩ <;> intros <;> split_ifs <;> first | rfl | linarith

theorem calculateIncomeScore_mono (a b : ℚ) (hab : a ≤ b) :
    calculateIncomeScore a ≤ calculateIncomeScore b := by
  simp only [calculateIncomeScore]
  split_ifs <;> first | (exfalso; simp only [not_lt] at *; linarith) | norm_num

/-! ## C8 -/

/-- C8: for all non-negative incomes a <= b, `calculateIncomeScore a` <=
`calculateIncomeScore b`; for every non-negative income the result is 300 below 50000,
450 on [50000, 100000), 600 on [100000, 200000), 750 on [200000, 500000) and 850 from
500000 on, hence one of 300, 450, 600, 750, 850. -/
theorem C8_income_score_monotone_in_bands :
    (∀ a b : ℚ, 0 ≤ a → a ≤ b → calculateIncomeScore a ≤ calculateIncomeScore b) ∧
    (∀ income : ℚ, 0 ≤ income →
      (income < 50000 → calculateIncomeScore income = 300) ∧
      (50000 ≤ income → income < 100000 → calculateIncomeScore income = 450) ∧
      (100000 ≤ income → income < 200000 → calculateIncomeScore income = 600) ∧
      (200000 ≤ income → income < 500000 → calculateIncomeScore income = 750) ∧
      (500000 ≤ income → calculateIncomeScore income = 850) ∧
      (calculateIncomeScore income = 300 ∨ calculateIncomeScore income = 450 ∨
        calculateIncomeScore income = 600 ∨ calculateIncomeScore income = 750 ∨
        calculateIncomeScore income = 850)) := by
  refine ⟨fun a b _ hab => calculateIncomeScore_mono a b hab, ?_⟩
  intro income _
  obtain ⟨h1, h2, h3, h4, h5⟩ := calculateIncomeScore_bands income
  refine ⟨h1, h2, h3, h4, h5, ?_⟩
  simp only [calculateIncomeScore]
  split_ifs <;> simp

/-- C8 across the first band boundary and at two band starts. -/
theorem C8_witness :
    calculateIncomeScore 49999 ≤ calculateIncomeScore 50000 ∧
    calculateIncomeScore 50000 = 450 ∧ calculateIncomeScore 200000 = 750 :=
  ⟨C8_income_score_monotone_in_bands.1 49999 50000 (by norm_num) (by norm_num),
   (C8_income_score_monotone_in_bands.2 50000 (by norm_num)).2.1 (by norm_num) (by norm_num),
   (C8_income_score_monotone_in_bands.2 200000 (by norm_num)).2.2.2.1 (by norm_num)
     (by norm_num)⟩

theorem goMapIndex_absent {β : Type} (k1 k2 k3 k4 : String) (v1 v2 v3 v4 zero : β)
    (k : String) (h1 : k ≠ k1) (h2 : k ≠ k2) (h3 : k ≠ k3) (h4 : k ≠ k4) :
    goMapIndex [(k1, v1), (k2, v2), (k3, v3), (k4, v4)] zero k = zero := by
  have b1 : (k == k1) = false := by simpa using h1
  have b2 : (k == k2) = false := by simpa using h2
  have b3 : (k == k3) = false := by simpa using h3
  have b4 : (k == k4) = false := by simpa using h4
  simp only [goMapIndex, List.lookup, b1, b2, b3, b4]

theorem calculateEmploymentScore_other (status : String)
    (h1 : status ≠ "employed") (h2 : status ≠ "self-employed")
    (h3 : status ≠ "unemployed") (h4 : status ≠ "retired") :
    calculateEmploymentScore status = 0 := by
  simp only [calculateEmploymentScore]
  exact goMapIndex_absent _ _ _ _ _ _ _ _ _ status h1 h2 h3 h4

theorem Validate_rejects_status (r : dto.CalculateScoreRequest)
    (h1 : r.EmploymentStatus ≠ "employed") (h2 : r.EmploymentStatus ≠ "self-employed")
    (h3 : r.EmploymentStatus ≠ "unemployed") (h4 : r.EmploymentStatus ≠ "retired") :
    r.Validate =
      some (GoError.Errorf ("invalid employment status: " ++ r.EmploymentStatus)) := by
  simp only [dto.CalculateScoreRequest.Validate]
  rw [goMapIndex_absent _ _ _ _ _ _ _ _ _ r.EmploymentStatus h1 h2 h3 h4]
  simp

theorem Validate_accepts_status (r : dto.CalculateScoreRequest) (h : r.Validate = none) :
    r.EmploymentStatus = "employed" ∨ r.EmploymentStatus = "self-employed" ∨
      r.EmploymentStatus = "unemployed" ∨ r.EmploymentStatus = "retired" := by
  by_contra hno
  push_neg at hno
  obtain ⟨h1, h2, h3, h4⟩ := hno
  rw [Validate_rejects_status r h1 h2 h3 h4] at h
  exact absurd h (by simp)

/-! ## C9 -/

/-- C9: `calculateEmploymentScore` returns 750 for "employed", 650 for "self-employed",
550 for "retired", 350 for "unemployed" and 0 for every other status string;
`Validate` rejects every request whose status is none of the four; so for every
request `Validate` accepts, the employment sub-score is one of 750, 650, 550, 350 and
not 0. -/
theorem C9_employment_lookup_and_validation :
    calculateEmploymentScore "employed" = 750 ∧
    calculateEmploymentScore "self-employed" = 650 ∧
    calculateEmploymentScore "retired" = 550 ∧
    calculateEmploymentScore "unemployed" = 350 ∧
    (∀ status : String, status ≠ "employed" → status ≠ "self-employed" →
      status ≠ "unemployed" → status ≠ "retired" → calculateEmploymentScore status = 0) ∧
    (∀ r : dto.CalculateScoreRequest, r.EmploymentStatus ≠ "employed" →
      r.EmploymentStatus ≠ "self-employed" → r.EmploymentStatus ≠ "unemployed" →
      r.EmploymentStatus ≠ "retired" →
      r.Validate = some (GoError.Errorf ("invalid employment status: " ++ r.EmploymentStatus))) ∧
    (∀ r : dto.CalculateScoreRequest, r.Validate = none →
      (calculateEmploymentScore r.EmploymentStatus = 750 ∨
        calculateEmploymentScore r.EmploymentStatus = 650 ∨
        calculateEmploymentScore r.EmploymentStatus = 550 ∨
        calculateEmploymentScore r.EmploymentStatus = 350) ∧
      calculateEmploymentScore r.EmploymentStatus ≠ 0) := by
  have e1 : calculateEmploymentScore "employed" = 750 := by decide
  have e2 : calculateEmploymentScore "self-employed" = 650 := by decide
  have e3 : calculateEmploymentScore "retired" = 550 := by decide
  have e4 : calculateEmploymentScore "unemployed" = 350 := by decide
  refine ⟨e1, e2, e3, e4, calculateEmploymentScore_other, Validate_rejects_status, ?_⟩
  · intro r hv
    rcases Validate_accepts_status r hv with h | h | h | h <;> rw [h]
    · exact ⟨Or.inl e1, by rw [e1]; norm_num⟩
    · exact ⟨Or.inr (Or.inl e2), by rw [e2]; norm_num⟩
    · exact ⟨Or.inr (Or.inr (Or.inr e4)), by rw [e4]; norm_num⟩
    · exact ⟨Or.inr (Or.inr (Or.inl e3)), by rw [e3]; norm_num⟩

/-- C9 at the status "student" and at the sample request. -/
theorem C9_witness :
    calculateEmploymentScore "student" = 0 ∧
    sampleBadStatusRequest.Validate =
      some (GoError.Errorf ("invalid employment status: " ++ "student")) ∧
    sampleRequest.Validate = none ∧
    calculateEmploymentScore sampleRequest.EmploymentStatus ≠ 0 :=
  ⟨C9_employment_lookup_and_validation.2.2.2.2.1 "student" (by decide) (by decide)
     (by decide) (by decide),
   C9_employment_lookup_and_validation.2.2.2.2.2.1 sampleBadStatusRequest (by decide)
     (by decide) (by decide) (by decide),
   by simp [dto.CalculateScoreRequest.Validate, goMapIndex, List.lookup, sampleRequest],
   (C9_employment_lookup_and_validation.2.2.2.2.2.2 sampleRequest
     (by simp [dto.CalculateScoreRequest.Validate, goMapIndex, List.lookup, sampleRequest])).2⟩

/-! ## C10 -/

theorem CalculateScore_expiry (env : CalculateScoreEnv) (req : dto.CalculateScoreRequest) :
    ((builtScore env req).ExpiresAt = (builtScore env req).CalculatedAt + 30 * 24 * time.Hour ↔
      env.nowExpiresAt = env.nowCalculatedAt) ∧
    (builtRow env req).ExpiresAt = (builtScore env req).ExpiresAt ∧
    (builtRow env req).CalculatedAt = (builtScore env req).CalculatedAt := by
  refine ⟨?_, rfl, rfl⟩
  simp only [builtScore]
  constructor <;> intro h <;> omega

/-- C10 fails on the code: `CalculatedAt` and `ExpiresAt` come from two separate clock
readings.  With the readings 1000 ns and 1001 ns the record returned, and the row
handed to the store, have `CalculatedAt` = 1000 and `ExpiresAt` = 1001 + 30 days, which
is not `CalculatedAt` + 30 days. -/
theorem C10_expiry_uses_second_clock_reading :
    ∃ cs : dto.CreditScore,
      (sampleService.CalculateScore sampleEnvClockAdvances sampleRequest).1 = .ok cs ∧
      (sampleService.CalculateScore sampleEnvClockAdvances sampleRequest).2.repo.db =
        [{ builtRow sampleEnvClockAdvances sampleRequest with
           CreatedAt := 1000, UpdatedAt := 1000 }] ∧
      (builtRow sampleEnvClockAdvances sampleRequest).CalculatedAt = cs.CalculatedAt ∧
      (builtRow sampleEnvClockAdvances sampleRequest).ExpiresAt = cs.ExpiresAt ∧
      cs.CalculatedAt = 1000 ∧
      cs.ExpiresAt = 1001 + 30 * 24 * 60 * 60 * 1000000000 ∧
      cs.ExpiresAt ≠ cs.CalculatedAt + 30 * 24 * 60 * 60 * 1000000000 := by
  refine ⟨builtScore sampleEnvClockAdvances sampleRequest, ?_, ?_, rfl, rfl, rfl, ?_, ?_⟩
  · rw [CalculateScore_result]; rfl
  · simp [CalculateScore, CreditRepository.Create, sampleEnvClockAdvances, sampleEnv,
      sampleService, builtRow, builtScore, totalScore]
  · decide
  · decide

/-! ## Bounds on the sub-scores and on the weighted sum -/

theorem calculateIncomeScore_bounds (income : ℚ) :
    300 ≤ calculateIncomeScore income ∧ calculateIncomeScore income ≤ 850 := by
  simp only [calculateIncomeScore]
  split_ifs <;> norm_num

theorem calculateEmploymentScore_le (status : String) :
    calculateEmploymentScore status ≤ 750 := by
  by_cases h1 : status = "employed"
  · rw [h1]; decide
  by_cases h2 : status = "self-employed"
  · rw [h2]; decide
  by_cases h3 : status = "unemployed"
  · rw [h3]; decide
  by_cases h4 : status = "retired"
  · rw [h4]; decide
  rw [calculateEmploymentScore_other status h1 h2 h3 h4]
  norm_num

theorem calculateEmploymentScore_accepted (r : dto.CalculateScoreRequest)
    (h : r.Validate = none) :
    350 ≤ calculateEmploymentScore r.EmploymentStatus := by
  rcases Validate_accepts_status r h with h | h | h | h <;> rw [h] <;> decide

theorem calculateAccountAgeScore_le (ageInMonths : Int) :
    calculateAccountAgeScore ageInMonths ≤ 850 := by
  simp only [calculateAccountAgeScore]
  exact min_le_right _ _

theorem calculateAccountAgeScore_ge (ageInMonths : Int) (h : 0 ≤ ageInMonths) :
    300 ≤ calculateAccountAgeScore ageInMonths := by
  simp only [calculateAccountAgeScore]
  have hq : (0 : ℚ) ≤ (ageInMonths : ℚ) := by exact_mod_cast h
  exact le_min (by linarith) (by norm_num)

theorem calculateLoanHistoryScore_bounds (history : List dto.LoanHistoryItem) :
    300 ≤ calculateLoanHistoryScore history ∧ calculateLoanHistoryScore history ≤ 850 := by
  by_cases hne : history = []
  · rw [hne]
    norm_num [calculateLoanHistoryScore]
  · have hlen : (0 : ℚ) < (history.length : ℚ) := by
      have : 0 < history.length := List.length_pos.mpr hne
      exact_mod_cast this
    have hle : (history.countP (fun loan => loan.Status = "paid") : ℚ) ≤
        (history.length : ℚ) := by
      exact_mod_cast List.countP_le_length
        (fun loan : dto.LoanHistoryItem => decide (loan.Status = "paid"))
    have h0 : (0 : ℚ) ≤ (history.countP (fun loan => loan.Status = "paid") : ℚ) /
        (history.length : ℚ) := by positivity
    have h1 : (history.countP (fun loan => loan.Status = "paid") : ℚ) /
        (history.length : ℚ) ≤ 1 := (div_le_one hlen).mpr hle
    rw [calculateLoanHistoryScore_ratio history hne]
    constructor <;> nlinarith

theorem calculateLoanHistoryScore_none_paid (history : List dto.LoanHistoryItem)
    (hne : history ≠ []) (hall : ∀ loan ∈ history, loan.Status ≠ "paid") :
    calculateLoanHistoryScore history = 300 := by
  have hcount : history.countP (fun loan => loan.Status = "paid") = 0 := by
    rw [List.countP_eq_zero]
    intro loan hl
    simpa using hall loan hl
  rw [calculateLoanHistoryScore_ratio history hne, hcount]
  norm_num

theorem totalScore_eq_goInt_of_range (req : dto.CalculateScoreRequest)
    (hlo : 300 ≤ goInt (weightedSum (calculateIncomeScore req.IncomeAmount)
      (calculateEmploymentScore req.EmploymentStatus)
      (calculateAccountAgeScore req.AccountAge)
      (calculateLoanHistoryScore req.LoanHistory)))
    (hhi : goInt (weightedSum (calculateIncomeScore req.IncomeAmount)
      (calculateEmploymentScore req.EmploymentStatus)
      (calculateAccountAgeScore req.AccountAge)
      (calculateLoanHistoryScore req.LoanHistory)) ≤ 850) :
    totalScore req = goInt (weightedSum (calculateIncomeScore req.IncomeAmount)
      (calculateEmploymentScore req.EmploymentStatus)
      (calculateAccountAgeScore req.AccountAge)
      (calculateLoanHistoryScore req.LoanHistory)) := by
  rw [totalScore_eq_clamp]
  omega

theorem weightedSum_accepted_bounds (req : dto.CalculateScoreRequest)
    (hv : req.Validate = none) (hage : 0 ≤ req.AccountAge) :
    625 / 2 ≤ weightedSum (calculateIncomeScore req.IncomeAmount)
      (calculateEmploymentScore req.EmploymentStatus)
      (calculateAccountAgeScore req.AccountAge)
      (calculateLoanHistoryScore req.LoanHistory) ∧
    weightedSum (calculateIncomeScore req.IncomeAmount)
      (calculateEmploymentScore req.EmploymentStatus)
      (calculateAccountAgeScore req.AccountAge)
      (calculateLoanHistoryScore req.LoanHistory) ≤ 825 := by
  have hI := calculateIncomeScore_bounds req.IncomeAmount
  have hE1 := calculateEmploymentScore_accepted req hv
  have hE2 := calculateEmploymentScore_le req.EmploymentStatus
  have hA1 := calculateAccountAgeScore_ge req.AccountAge hage
  have hA2 := calculateAccountAgeScore_le req.AccountAge
  have hL := calculateLoanHistoryScore_bounds req.LoanHistory
  unfold weightedSum
  constructor <;> norm_num <;> linarith [hI.1, hI.2, hL.1, hL.2]

theorem goInt_le_of_lt (x : ℚ) (n : Int) (hn : 0 ≤ n) (hx : x < (n : ℚ) + 1) :
    goInt x ≤ n := by
  unfold goInt
  split_ifs with h
  · have hlt : ⌊x⌋ < n + 1 := by
      rw [Int.floor_lt]
      exact_mod_cast hx
    omega
  · push_neg at h
    have hc : ⌈x⌉ ≤ 0 := by
      rw [Int.ceil_le]
      exact_mod_cast h.le
    omega

theorem goInt_ge_of_le (x : ℚ) (n : Int) (hx : (n : ℚ) ≤ x) (h0 : 0 ≤ x) : n ≤ goInt x := by
  rw [goInt_of_nonneg h0, Int.le_floor]
  exact hx

/-! ## C13 -/

/-- C13: for every request `Validate` accepts whose account age is non-negative, the
weighted sum converted to `int` lies between 312 and 825 inclusive, so the range
check of `CalculateScore` leaves it unchanged: the score of the returned record is
that value, within [312, 825], and never 850.  Both bounds are reached: 312 by income
0, "unemployed", age 0 and one loan that is not "paid"; 825 by income 500000,
"employed", age 55 and one "paid" loan. -/
theorem C13_accepted_score_within_312_825 :
    (∀ (s : CreditScoringService) (env : CalculateScoreEnv) (req : dto.CalculateScoreRequest),
      req.Validate = none → 0 ≤ req.AccountAge → env.createFault = none →
      312 ≤ goInt (weightedSum (calculateIncomeScore req.IncomeAmount)
        (calculateEmploymentScore req.EmploymentStatus)
        (calculateAccountAgeScore req.AccountAge)
        (calculateLoanHistoryScore req.LoanHistory)) ∧
      goInt (weightedSum (calculateIncomeScore req.IncomeAmount)
        (calculateEmploymentScore req.EmploymentStatus)
        (calculateAccountAgeScore req.AccountAge)
        (calculateLoanHistoryScore req.LoanHistory)) ≤ 825 ∧
      ∃ cs : dto.CreditScore,
        (s.CalculateScore env req).1 = .ok cs ∧
        cs.Score = goInt (weightedSum (calculateIncomeScore req.IncomeAmount)
          (calculateEmploymentScore req.EmploymentStatus)
          (calculateAccountAgeScore req.AccountAge)
          (calculateLoanHistoryScore req.LoanHistory)) ∧
        312 ≤ cs.Score ∧ cs.Score ≤ 825 ∧ cs.Score ≠ 850) ∧
    (sampleFloorRequest.Validate = none ∧ 0 ≤ sampleFloorRequest.AccountAge ∧
      ∃ cs : dto.CreditScore,
        (sampleService.CalculateScore sampleEnv sampleFloorRequest).1 = .ok cs ∧
        cs.Score = 312) ∧
    (sampleCeilingRequest.Validate = none ∧ 0 ≤ sampleCeilingRequest.AccountAge ∧
      ∃ cs : dto.CreditScore,
        (sampleService.CalculateScore sampleEnv sampleCeilingRequest).1 = .ok cs ∧
        cs.Score = 825) := by
  refine ⟨?_, ?_, ?_⟩
  · intro s env req hv hage hf
    obtain ⟨hlo, hhi⟩ := weightedSum_accepted_bounds req hv hage
    have h312 : 312 ≤ goInt (weightedSum (calculateIncomeScore req.IncomeAmount)
        (calculateEmploymentScore req.EmploymentStatus)
        (calculateAccountAgeScore req.AccountAge)
        (calculateLoanHistoryScore req.LoanHistory)) :=
      goInt_ge_of_le _ 312 (by push_cast; linarith) (by linarith)
    have h825 : goInt (weightedSum (calculateIncomeScore req.IncomeAmount)
        (calculateEmploymentScore req.EmploymentStatus)
        (calculateAccountAgeScore req.AccountAge)
        (calculateLoanHistoryScore req.LoanHistory)) ≤ 825 :=
      goInt_le_of_lt _ 825 (by norm_num) (by push_cast; linarith)
    have hscore := totalScore_eq_goInt_of_range req (by omega) (by omega)
    refine ⟨h312, h825, builtScore env req, ?_, hscore, ?_, ?_, ?_⟩
    · rw [CalculateScore_result, hf]
    · show 312 ≤ totalScore req
      omega
    · show totalScore req ≤ 825
      omega
    · show totalScore req ≠ 850
      omega
  · refine ⟨by simp [dto.CalculateScoreRequest.Validate, goMapIndex, List.lookup,
      sampleFloorRequest], by decide, builtScore sampleEnv sampleFloorRequest,
      by rw [CalculateScore_result]; rfl, ?_⟩
    show totalScore sampleFloorRequest = 312
    have hI : calculateIncomeScore 0 = 300 := by norm_num [calculateIncomeScore]
    have hE : calculateEmploymentScore "unemployed" = 350 := by decide
    have hA : calculateAccountAgeScore 0 = 300 := by norm_num [calculateAccountAgeScore]
    have hL : calculateLoanHistoryScore
        [{ Amount := 500, Status := "defaulted", PaymentDate := 0 }] = 300 :=
      calculateLoanHistoryScore_none_paid _ (by decide) (by decide)
    rw [totalScore_eq_clamp]
    simp only [sampleFloorRequest, hI, hE, hA, hL]
    have h312 : goInt (weightedSum 300 350 300 300) = 312 := by
      rw [goInt_of_nonneg (by norm_num [weightedSum])]
      rw [Int.floor_eq_iff]; norm_num [weightedSum]
    rw [h312]; decide
  · refine ⟨by simp [dto.CalculateScoreRequest.Validate, goMapIndex, List.lookup,
      sampleCeilingRequest], by decide, builtScore sampleEnv sampleCeilingRequest,
      by rw [CalculateScore_result]; rfl, ?_⟩
    show totalScore sampleCeilingRequest = 825
    have hI : calculateIncomeScore 500000 = 850 := by norm_num [calculateIncomeScore]
    have hE : calculateEmploymentScore "employed" = 750 := by decide
    have hA : calculateAccountAgeScore 55 = 850 := by norm_num [calculateAccountAgeScore]
    have hL : calculateLoanHistoryScore
        [{ Amount := 500, Status := "paid", PaymentDate := 0 }] = 850 := by
      norm_num [calculateLoanHistoryScore]
    rw [totalScore_eq_clamp]
    simp only [sampleCeilingRequest, hI, hE, hA, hL]
    have h825 : goInt (weightedSum 850 750 850 850) = 825 := by
      rw [goInt_of_nonneg (by norm_num [weightedSum])]
      rw [Int.floor_eq_iff]; norm_num [weightedSum]
    rw [h825]; decide

/-- C13 at the sample request of the first scenario. -/
theorem C13_witness :
    sampleRequest.Validate = none ∧
    ∃ cs : dto.CreditScore,
      (sampleService.CalculateScore sampleEnv sampleRequest).1 = .ok cs ∧
      312 ≤ cs.Score ∧ cs.Score ≤ 825 :=
  ⟨by simp [dto.CalculateScoreRequest.Validate, goMapIndex, List.lookup, sampleRequest],
   (let ⟨cs, hres, _, hlo, hhi, _⟩ :=
      (C13_accepted_score_within_312_825.1 sampleService sampleEnv sampleRequest
        (by simp [dto.CalculateScoreRequest.Validate, goMapIndex, List.lookup, sampleRequest])
        (by decide) rfl).2.2
    ⟨cs, hres, hlo, hhi⟩)⟩

theorem weightedSum_none_paid_le (req : dto.CalculateScoreRequest)
    (hne : req.LoanHistory ≠ []) (hall : ∀ loan ∈ req.LoanHistory, loan.Status ≠ "paid") :
    weightedSum (calculateIncomeScore req.IncomeAmount)
      (calculateEmploymentScore req.EmploymentStatus)
      (calculateAccountAgeScore req.AccountAge)
      (calculateLoanHistoryScore req.LoanHistory) ≤ 1375 / 2 := by
  have hI := calculateIncomeScore_bounds req.IncomeAmount
  have hE := calculateEmploymentScore_le req.EmploymentStatus
  have hA := calculateAccountAgeScore_le req.AccountAge
  rw [calculateLoanHistoryScore_none_paid req.LoanHistory hne hall]
  unfold weightedSum
  norm_num
  linarith [hI.2]

theorem totalScore_none_paid_le (req : dto.CalculateScoreRequest)
    (hne : req.LoanHistory ≠ []) (hall : ∀ loan ∈ req.LoanHistory, loan.Status ≠ "paid") :
    totalScore req ≤ 687 := by
  have hw := weightedSum_none_paid_le req hne hall
  have ht : goInt (weightedSum (calculateIncomeScore req.IncomeAmount)
      (calculateEmploymentScore req.EmploymentStatus)
      (calculateAccountAgeScore req.AccountAge)
      (calculateLoanHistoryScore req.LoanHistory)) ≤ 687 :=
    goInt_le_of_lt _ 687 (by norm_num) (by push_cast; linarith)
  rw [totalScore_eq_clamp]
  omega

/-! ## C14 -/

/-- C14: for every request whose loan history is non-empty and has no entry of status
"paid", whatever its income, employment status and account age, the score of the
record `CalculateScore` returns is at most 687; its factors contain neither
"Strong payment history" nor "Good financial stability", and its grade is neither
"Very Good" nor "Excellent".  The bound 687 is reached. -/
theorem C14_no_paid_loan_caps_score :
    (∀ (s : CreditScoringService) (env : CalculateScoreEnv) (req : dto.CalculateScoreRequest),
      req.LoanHistory ≠ [] → (∀ loan ∈ req.LoanHistory, loan.Status ≠ "paid") →
      env.createFault = none →
      ∃ cs : dto.CreditScore,
        (s.CalculateScore env req).1 = .ok cs ∧ cs.Score ≤ 687 ∧
        "Strong payment history" ∉ cs.Factors ∧ "Good financial stability" ∉ cs.Factors ∧
        cs.Grade ≠ "Very Good" ∧ cs.Grade ≠ "Excellent") ∧
    ∃ cs : dto.CreditScore,
      (sampleService.CalculateScore sampleEnv sampleUnpaidRequest).1 = .ok cs ∧
      cs.Score = 687 := by
  refine ⟨?_, ?_⟩
  · intro s env req hne hall hf
    have hle := totalScore_none_paid_le req hne hall
    have h700 : ¬ (700 ≤ totalScore req) := by omega
    refine ⟨builtScore env req, ?_, hle, ?_, ?_, ?_, ?_⟩
    · rw [CalculateScore_result, hf]
    · show "Strong payment history" ∉ generateFactors req (totalScore req)
      rw [generateFactors_eq]
      simp only [h700, if_false]
      split_ifs <;> decide
    · show "Good financial stability" ∉ generateFactors req (totalScore req)
      rw [generateFactors_eq]
      simp only [h700, if_false]
      split_ifs <;> decide
    · show getGrade (totalScore req) ≠ "Very Good"
      intro hg
      have := (getGrade_cases (totalScore req)).2.1.mp hg
      omega
    · show getGrade (totalScore req) ≠ "Excellent"
      intro hg
      have := (getGrade_cases (totalScore req)).1.mp hg
      omega
  · refine ⟨builtScore sampleEnv sampleUnpaidRequest, by rw [CalculateScore_result]; rfl, ?_⟩
    show totalScore sampleUnpaidRequest = 687
    have hI : calculateIncomeScore 500000 = 850 := by norm_num [calculateIncomeScore]
    have hE : calculateEmploymentScore "employed" = 750 := by decide
    have hA : calculateAccountAgeScore 55 = 850 := by norm_num [calculateAccountAgeScore]
    have hL : calculateLoanHistoryScore
        [{ Amount := 500, Status := "defaulted", PaymentDate := 0 }] = 300 :=
      calculateLoanHistoryScore_none_paid _ (by decide) (by decide)
    rw [totalScore_eq_clamp]
    simp only [sampleUnpaidRequest, hI, hE, hA, hL]
    have h687 : goInt (weightedSum 850 750 850 300) = 687 := by
      rw [goInt_of_nonneg (by norm_num [weightedSum])]
      rw [Int.floor_eq_iff]; norm_num [weightedSum]
    rw [h687]; decide

/-- C14 at the request with the highest other sub-scores and one unpaid loan. -/
theorem C14_witness :
    ∃ cs : dto.CreditScore,
      (sampleService.CalculateScore sampleEnv sampleUnpaidRequest).1 = .ok cs ∧
      cs.Score ≤ 687 ∧ cs.Grade ≠ "Very Good" ∧ cs.Grade ≠ "Excellent" :=
  let ⟨cs, hres, hle, _, _, hvg, hex⟩ :=
    C14_no_paid_loan_caps_score.1 sampleService sampleEnv sampleUnpaidRequest (by decide)
      (by decide) rfl
  ⟨cs, hres, hle, hvg, hex⟩

/-! ## The history query -/

theorem GetHistory_state (s : CreditScoringService) (env : GetHistoryEnv) (userID : String) :
    (s.GetHistory env userID).2 =
      { s with calls := s.calls ++ [Call.repoGetHistory userID 12] } := by
  simp only [GetHistory]
  split <;> rfl

theorem GetHistory_ok (s : CreditScoringService) (env : GetHistoryEnv) (userID : String)
    (rows : List model.CreditScore)
    (h : s.repo.GetHistoryByUserID userID 12 env.fault = (rows, none)) :
    (s.GetHistory env userID).1 = .ok { UserID := userID, History := rows.map dtoOf } := by
  simp [GetHistory, h, dtoOf]

theorem GetHistory_error (s : CreditScoringService) (env : GetHistoryEnv) (userID : String)
    (rows : List model.CreditScore) (err : GoError)
    (h : s.repo.GetHistoryByUserID userID 12 env.fault = (rows, some err)) :
    (s.GetHistory env userID).1 = .error err := by
  simp [GetHistory, h]

theorem queryHistory_length (rows : List model.CreditScore) (userID : String) (limit : Int) :
    (CreditRepository.queryHistory rows userID limit).length =
      min limit.toNat (rows.filter (fun row => row.UserID = userID)).length := by
  simp [CreditRepository.queryHistory, List.length_take, List.length_insertionSort]

theorem queryHistory_mem (rows : List model.CreditScore) (userID : String) (limit : Int)
    (row : model.CreditScore) (h : row ∈ CreditRepository.queryHistory rows userID limit) :
    row ∈ rows ∧ row.UserID = userID := by
  have h1 := List.mem_of_mem_take h
  rw [List.mem_insertionSort, List.mem_filter] at h1
  exact ⟨h1.1, by simpa using h1.2⟩

theorem queryHistory_sorted (rows : List model.CreditScore) (userID : String) (limit : Int) :
    (CreditRepository.queryHistory rows userID limit).Pairwise
      (fun a b => a.CalculatedAt ≥ b.CalculatedAt) := by
  haveI : IsTotal model.CreditScore (fun a b => a.CalculatedAt ≥ b.CalculatedAt) :=
    ⟨fun a b => le_total b.CalculatedAt a.CalculatedAt⟩
  haveI : IsTrans model.CreditScore (fun a b => a.CalculatedAt ≥ b.CalculatedAt) :=
    ⟨fun a b c hab hbc => le_trans hbc hab⟩
  have hs := List.sorted_insertionSort (fun a b : model.CreditScore =>
    a.CalculatedAt ≥ b.CalculatedAt) (rows.filter (fun row => row.UserID = userID))
  exact List.Pairwise.sublist (List.take_sublist _ _) hs

theorem queryHistory_perm (rows : List model.CreditScore) (userID : String) (limit : Int)
    (h : (rows.filter (fun row => row.UserID = userID)).length ≤ limit.toNat) :
    (CreditRepository.queryHistory rows userID limit).Perm
      (rows.filter (fun row => row.UserID = userID)) := by
  unfold CreditRepository.queryHistory
  rw [List.take_of_length_le (by rw [List.length_insertionSort]; exact h)]
  exact List.perm_insertionSort _ _

/-! ## C12 -/

/-- C12: `GetHistory` makes one call to the store, the history read for the user with
limit 12, and changes nothing else.  When the store returns rows without error the
result is a history for that user whose entries are the rows in the store's order,
each with id, user, score, grade, factors, recommendation, calculated-at and
expires-at copied unchanged, nothing added or dropped, so it has at most 12 entries
when the store returned at most 12 rows, and it is an empty history with no error
when the store returned none.  When the store returns an error that error is
returned and no history.  With a store read that succeeds, the entries are rows of
the user in descending calculation time, as many as the user has rows up to 12, and
all of the user's rows when there are at most 12. -/
theorem C12_GetHistory_returns_store_rows (s : CreditScoringService) (env : GetHistoryEnv)
    (userID : String) :
    (s.GetHistory env userID).2 =
      { s with calls := s.calls ++ [Call.repoGetHistory userID 12] } ∧
    (∀ rows : List model.CreditScore,
      s.repo.GetHistoryByUserID userID 12 env.fault = (rows, none) →
      ∃ h : dto.CreditScoreHistory,
        (s.GetHistory env userID).1 = .ok h ∧ h.UserID = userID ∧
        List.Forall₂
          (fun (cs : dto.CreditScore) (row : model.CreditScore) =>
            cs.ID = row.ID ∧ cs.UserID = row.UserID ∧ cs.Score = row.Score ∧
            cs.Grade = row.Grade ∧ cs.Factors = row.Factors ∧
            cs.Recommendation = row.Recommendation ∧ cs.CalculatedAt = row.CalculatedAt ∧
            cs.ExpiresAt = row.ExpiresAt)
          h.History rows ∧
        h.History.length = rows.length ∧
        (rows.length ≤ 12 → h.History.length ≤ 12) ∧
        (rows = [] → h.History = [])) ∧
    (∀ (rows : List model.CreditScore) (err : GoError),
      s.repo.GetHistoryByUserID userID 12 env.fault = (rows, some err) →
      (s.GetHistory env userID).1 = .error err) ∧
    (env.fault = none →
      ∃ h : dto.CreditScoreHistory,
        (s.GetHistory env userID).1 = .ok h ∧ h.UserID = userID ∧
        h.History.length =
          min 12 (s.repo.db.filter (fun row => row.UserID = userID)).length ∧
        h.History.length ≤ 12 ∧
        h.History.Pairwise (fun a b => a.CalculatedAt ≥ b.CalculatedAt) ∧
        (∀ cs ∈ h.History, ∃ row ∈ s.repo.db, row.UserID = userID ∧ cs = dtoOf row) ∧
        ((s.repo.db.filter (fun row => row.UserID = userID)).length ≤ 12 →
          h.History.Perm ((s.repo.db.filter (fun row => row.UserID = userID)).map dtoOf)) ∧
        ((∀ row ∈ s.repo.db, row.UserID ≠ userID) → h.History = [])) := by
  refine ⟨GetHistory_state s env userID, ?_, ?_, ?_⟩
  · intro rows hrows
    refine ⟨{ UserID := userID, History := rows.map dtoOf }, GetHistory_ok s env userID rows hrows,
      rfl, ?_, by simp, ?_, ?_⟩
    · show List.Forall₂ _ (rows.map dtoOf) rows
      rw [List.forall₂_map_left_iff, List.forall₂_same]
      intro row _
      exact ⟨rfl, rfl, rfl, rfl, rfl, rfl, rfl, rfl⟩
    · intro hlen
      simpa using hlen
    · intro hnil
      simp [hnil]
  · intro rows err hrows
    exact GetHistory_error s env userID rows err hrows
  · intro hfault
    have hrows : s.repo.GetHistoryByUserID userID 12 env.fault =
        (CreditRepository.queryHistory s.repo.db userID 12, none) := by
      rw [hfault]; rfl
    have hlen := queryHistory_length s.repo.db userID 12
    have h12 : (12 : Int).toNat = 12 := rfl
    rw [h12] at hlen
    refine ⟨{ UserID := userID,
              History := (CreditRepository.queryHistory s.repo.db userID 12).map dtoOf },
      GetHistory_ok s env userID _ hrows, rfl, ?_, ?_, ?_, ?_, ?_, ?_⟩
    · simpa using hlen
    · simp only [List.length_map, hlen]
      exact min_le_left _ _
    · rw [List.pairwise_map]
      exact queryHistory_sorted s.repo.db userID 12
    · intro cs hcs
      obtain ⟨row, hrow, rfl⟩ := List.mem_map.mp hcs
      obtain ⟨hmem, huser⟩ := queryHistory_mem s.repo.db userID 12 row hrow
      exact ⟨row, hmem, huser, rfl⟩
    · intro hle
      exact (queryHistory_perm s.repo.db userID 12 (by rw [h12]; exact hle)).map dtoOf
    · intro hnone
      have hfilter : s.repo.db.filter (fun row => row.UserID = userID) = [] := by
        simp only [List.filter_eq_nil_iff, decide_eq_true_eq]
        exact hnone
      have hzero : (CreditRepository.queryHistory s.repo.db userID 12).length = 0 := by
        rw [hlen, hfilter]; rfl
      simp [List.length_eq_zero.mp hzero]

/-- C12 at a store holding two rows of the user, at an empty store, and at a failing
store read. -/
theorem C12_witness :
    (∃ h : dto.CreditScoreHistory,
      (sampleStored.GetHistory sampleHistoryEnv "u1").1 = .ok h ∧
      h.History = [dtoOf sampleRow, dtoOf sampleOlderRow]) ∧
    (sampleService.GetHistory sampleHistoryEnv "u1").1 =
      .ok { UserID := "u1", History := [] } ∧
    (sampleStored.GetHistory sampleHistoryEnvFails "u1").1 =
      .error (GoError.driver "connection refused") ∧
    (∃ h : dto.CreditScoreHistory,
      (sampleStored.GetHistory sampleHistoryEnv "u1").1 = .ok h ∧ h.History.length ≤ 12) :=
  ⟨(let ⟨h, hres, _, hall, _⟩ :=
      (C12_GetHistory_returns_store_rows sampleStored sampleHistoryEnv "u1").2.1
        [sampleRow, sampleOlderRow] (by decide)
    ⟨h, hres, by
      rcases h with ⟨u, hist⟩
      simp only [List.forall₂_cons_right_iff, List.forall₂_nil_right_iff] at hall
      obtain ⟨a, l1, ha, ⟨b, l2, hb, hl2, hl1⟩, hh⟩ := hall
      subst hl2; subst hl1; subst hh
      obtain ⟨a1, a2, a3, a4, a5, a6, a7, a8⟩ := ha
      obtain ⟨b1, b2, b3, b4, b5, b6, b7, b8⟩ := hb
      cases a; cases b
      simp_all [dtoOf]⟩),
   (let ⟨h, hres, _, _, _, _, hnil⟩ :=
      (C12_GetHistory_returns_store_rows sampleService sampleHistoryEnv "u1").2.1 []
        (by decide)
    by
      rcases h with ⟨u, hist⟩
      have := hnil rfl
      simp_all),
   (C12_GetHistory_returns_store_rows sampleStored sampleHistoryEnvFails "u1").2.2.1 []
     (GoError.driver "connection refused") (by decide),
   (let ⟨h, hres, _, _, hle, _⟩ :=
      (C12_GetHistory_returns_store_rows sampleStored sampleHistoryEnv "u1").2.2.2 rfl
    ⟨h, hres, hle⟩)⟩

/-! ## C11 -/

theorem handler_GetScore_on_error (h : CreditHandler) (env : GetScoreEnv) (userID : String)
    (err : GoError) (hid : userID ≠ "")
    (herr : (h.service.GetScore env userID).1 = .error err) :
    (h.GetScore env userID).1 =
      { status := 404
        body := .apiError { Code := "NOT_FOUND", Message := "Credit score not found" } } := by
  simp only [CreditHandler.GetScore, hid, if_false, herr]
  rfl

/-- C11 fails on the code: on a cache miss the service returns distinct errors for a
user without a stored score (the not-found sentinel) and for a failing store read (the
driver's error), but handler `GetScore` answers every service error with status 404
and the body NOT_FOUND / "Credit score not found", so the caller receives the same
response in both cases.  Handler `GetHistory` answers a store failure with status 500
and the body INTERNAL_ERROR. -/
theorem C11_not_found_and_store_failure_same_response :
    (sampleService.GetScore sampleReadEnv "u1").1 = .error CreditRepository.ErrNotFound ∧
    (sampleService.GetScore sampleReadEnvStoreFails "u1").1 =
      .error (GoError.driver "connection refused") ∧
    CreditRepository.ErrNotFound ≠ GoError.driver "connection refused" ∧
    (sampleHandler.GetScore sampleReadEnv "u1").1 =
      { status := 404
        body := .apiError { Code := "NOT_FOUND", Message := "Credit score not found" } } ∧
    (sampleHandler.GetScore sampleReadEnvStoreFails "u1").1 =
      (sampleHandler.GetScore sampleReadEnv "u1").1 ∧
    (sampleHandler.GetHistory sampleHistoryEnvFails "u1").1 =
      { status := 500
        body := .apiError
          { Code := "INTERNAL_ERROR", Message := "Failed to retrieve history" } } := by
  refine ⟨rfl, rfl, by decide, by decide, by decide, by decide⟩

/-! ## Rounding to `float64` -/

theorem roundHalfEven_cases (m : ℚ) :
    roundHalfEven m = ⌊m⌋ ∨ roundHalfEven m = ⌊m⌋ + 1 := by
  simp only [roundHalfEven]
  split_ifs <;> simp

theorem roundHalfEven_intCast (k : Int) : roundHalfEven (k : ℚ) = k := by
  simp [roundHalfEven]

theorem roundHalfEven_abs_sub_le (m : ℚ) : |m - (roundHalfEven m : ℚ)| ≤ 1 / 2 := by
  have h1 : (⌊m⌋ : ℚ) ≤ m := Int.floor_le m
  have h2 : m < ⌊m⌋ + 1 := Int.lt_floor_add_one m
  simp only [roundHalfEven]
  split_ifs with ha hb hc
  · rw [abs_le]; constructor <;> linarith
  · push_cast; rw [abs_le]; constructor <;> linarith
  · rw [abs_le]; constructor <;> linarith
  · push_cast; rw [abs_le]; constructor <;> linarith

theorem roundHalfEven_eq_of_lt (m : ℚ) (k : Int) (h : |m - (k : ℚ)| < 1 / 2) :
    roundHalfEven m = k := by
  rw [abs_lt] at h
  have hfl : ⌊m⌋ = k ∨ ⌊m⌋ = k - 1 := by
    by_cases hk : (k : ℚ) ≤ m
    · left; rw [Int.floor_eq_iff]; constructor <;> linarith
    · right; rw [Int.floor_eq_iff]; push_cast; constructor <;> linarith
  simp only [roundHalfEven]
  rcases hfl with hf | hf
  · rw [hf]
    have h0 : m - (k : ℚ) < 1 / 2 := h.2
    simp only [h0, if_true]
  · rw [hf]
    push_cast
    have h1 : ¬ (m - ((k : ℚ) - 1) < 1 / 2) := by linarith
    have h2 : (1 : ℚ) / 2 < m - ((k : ℚ) - 1) := by linarith
    simp only [h1, h2, if_false, if_true]
    ring

theorem roundHalfEven_mono {a b : ℚ} (h : a ≤ b) : roundHalfEven a ≤ roundHalfEven b := by
  have hfl : ⌊a⌋ ≤ ⌊b⌋ := Int.floor_mono h
  rcases lt_or_eq_of_le hfl with hlt | heq
  · rcases roundHalfEven_cases a with ha | ha <;> rcases roundHalfEven_cases b with hb | hb <;>
      omega
  · simp only [roundHalfEven, heq]
    have hd : a - (⌊b⌋ : ℚ) ≤ b - (⌊b⌋ : ℚ) := by linarith
    split_ifs <;> first | omega | (exfalso; linarith)

theorem roundHalfEven_nonneg {m : ℚ} (h : 0 ≤ m) : 0 ≤ roundHalfEven m := by
  have := roundHalfEven_mono h
  rwa [show ((0 : ℚ)) = ((0 : Int) : ℚ) by norm_num, roundHalfEven_intCast] at this

theorem roundF64_zero : roundF64 0 = 0 := by
  simp [roundF64]

theorem roundF64_of_pos {x : ℚ} (hx : 0 < x) :
    roundF64 x =
      (roundHalfEven (x / (2 : ℚ) ^ (Int.log 2 x - 52)) : ℚ) * (2 : ℚ) ^ (Int.log 2 x - 52) := by
  simp only [roundF64, hx.ne', if_false, hx, if_true, abs_of_pos hx]

theorem ulp_eq (e : Int) : (2 : ℚ) ^ (e - 52) = (2 : ℚ) ^ e / 4503599627370496 := by
  rw [zpow_sub₀ (two_ne_zero)]
  norm_num

theorem log_bounds {x : ℚ} (hx : 0 < x) :
    (2 : ℚ) ^ Int.log 2 x ≤ x ∧ x < (2 : ℚ) ^ Int.log 2 x * 2 := by
  have h1 := Int.zpow_log_le_self (b := 2) (r := x) (by norm_num) hx
  have h2 := Int.lt_zpow_succ_log_self (b := 2) (by norm_num) x
  rw [zpow_add_one₀ (by norm_num)] at h2
  exact ⟨by exact_mod_cast h1, by exact_mod_cast h2⟩

theorem log_eq_of_bounds {x : ℚ} (e : Int) (h1 : (2 : ℚ) ^ e ≤ x) (h2 : x < (2 : ℚ) ^ e * 2) :
    Int.log 2 x = e := by
  have hx : 0 < x := lt_of_lt_of_le (by positivity) h1
  have ha : e ≤ Int.log 2 x := by
    rw [← Int.zpow_le_iff_le_log (by norm_num) hx]
    exact_mod_cast h1
  have hb : Int.log 2 x < e + 1 := by
    rw [← Int.lt_zpow_iff_log_lt (by norm_num) hx, zpow_add_one₀ (by norm_num)]
    exact_mod_cast h2
  omega

/-- A positive value whose scaled significand is within half a unit of the integer `k`
rounds to `k` units in the last place. -/
theorem roundF64_eq_of {x : ℚ} (e k : Int) (h1 : (2 : ℚ) ^ e ≤ x) (h2 : x < (2 : ℚ) ^ e * 2)
    (hk : |x / (2 : ℚ) ^ (e - 52) - (k : ℚ)| < 1 / 2) :
    roundF64 x = (k : ℚ) * (2 : ℚ) ^ (e - 52) := by
  have hx : 0 < x := lt_of_lt_of_le (by positivity) h1
  rw [roundF64_of_pos hx, log_eq_of_bounds e h1 h2, roundHalfEven_eq_of_lt _ k hk]

theorem roundF64_pos_bounds {x : ℚ} (hx : 0 < x) :
    (2 : ℚ) ^ Int.log 2 x ≤ roundF64 x ∧ roundF64 x ≤ (2 : ℚ) ^ Int.log 2 x * 2 := by
  obtain ⟨h1, h2⟩ := log_bounds hx
  have hp : (0 : ℚ) < (2 : ℚ) ^ Int.log 2 x := by positivity
  rw [roundF64_of_pos hx, ulp_eq]
  set p := (2 : ℚ) ^ Int.log 2 x with hpdef
  have hm : x / (p / 4503599627370496) = x / p * 4503599627370496 := by
    field_simp
  rw [hm]
  have hlo : ((4503599627370496 : Int) : ℚ) ≤ x / p * 4503599627370496 := by
    have : 1 ≤ x / p := by rw [le_div_iff₀ hp]; linarith
    push_cast; linarith
  have hhi : x / p * 4503599627370496 ≤ ((9007199254740992 : Int) : ℚ) := by
    have : x / p ≤ 2 := by rw [div_le_iff₀ hp]; linarith
    push_cast; linarith
  have hlo' := roundHalfEven_mono hlo
  have hhi' := roundHalfEven_mono hhi
  rw [roundHalfEven_intCast] at hlo' hhi'
  have hlo'' : (4503599627370496 : ℚ) ≤ (roundHalfEven (x / p * 4503599627370496) : ℚ) := by
    exact_mod_cast hlo'
  have hhi'' : (roundHalfEven (x / p * 4503599627370496) : ℚ) ≤ 9007199254740992 := by
    exact_mod_cast hhi'
  constructor
  · have := mul_le_mul_of_nonneg_right hlo'' (div_nonneg hp.le (by norm_num : (0:ℚ) ≤ 4503599627370496))
    calc p = 4503599627370496 * (p / 4503599627370496) := by field_simp
      _ ≤ _ := this
  · have := mul_le_mul_of_nonneg_right hhi'' (div_nonneg hp.le (by norm_num : (0:ℚ) ≤ 4503599627370496))
    calc _ ≤ 9007199254740992 * (p / 4503599627370496) := this
      _ = p * 2 := by field_simp; ring

theorem roundF64_pos {x : ℚ} (hx : 0 < x) : 0 < roundF64 x :=
  lt_of_lt_of_le (by positivity) (roundF64_pos_bounds hx).1

/-- Rounding is monotone on the non-negative values. -/
theorem roundF64_mono {x y : ℚ} (hx : 0 ≤ x) (hxy : x ≤ y) : roundF64 x ≤ roundF64 y := by
  rcases eq_or_lt_of_le hx with h0 | hpos
  · rw [← h0, roundF64_zero]
    rcases eq_or_lt_of_le (le_trans hx hxy) with hy0 | hypos
    · rw [← hy0, roundF64_zero]
    · exact (roundF64_pos hypos).le
  · have hypos : 0 < y := lt_of_lt_of_le hpos hxy
    have hlog : Int.log 2 x ≤ Int.log 2 y := Int.log_mono_right hpos hxy
    rcases lt_or_eq_of_le hlog with hlt | heq
    · have hxb := (roundF64_pos_bounds hpos).2
      have hyb := (roundF64_pos_bounds hypos).1
      have hstep : (2 : ℚ) ^ Int.log 2 x * 2 ≤ (2 : ℚ) ^ Int.log 2 y := by
        rw [← zpow_add_one₀ (by norm_num)]
        exact zpow_le_zpow_right₀ (by norm_num) (by omega)
      linarith
    · rw [roundF64_of_pos hpos, roundF64_of_pos hypos, heq]
      have hu : (0 : ℚ) < (2 : ℚ) ^ (Int.log 2 y - 52) := by positivity
      have hdiv : x / (2 : ℚ) ^ (Int.log 2 y - 52) ≤ y / (2 : ℚ) ^ (Int.log 2 y - 52) :=
        div_le_div_of_nonneg_right hxy hu.le
      have := roundHalfEven_mono hdiv
      have hc : (roundHalfEven (x / (2 : ℚ) ^ (Int.log 2 y - 52)) : ℚ) ≤
          (roundHalfEven (y / (2 : ℚ) ^ (Int.log 2 y - 52)) : ℚ) := by exact_mod_cast this
      exact mul_le_mul_of_nonneg_right hc hu.le

/-- The rounding error is at most 2^-53 relative to the value rounded. -/
theorem roundF64_rel_error {x : ℚ} (hx : 0 ≤ x) :
    |roundF64 x - x| ≤ x / 9007199254740992 := by
  rcases eq_or_lt_of_le hx with h0 | hpos
  · rw [← h0, roundF64_zero]; norm_num
  · obtain ⟨h1, -⟩ := log_bounds hpos
    have hu : (0 : ℚ) < (2 : ℚ) ^ (Int.log 2 x - 52) := by positivity
    rw [roundF64_of_pos hpos]
    set u := (2 : ℚ) ^ (Int.log 2 x - 52) with hudef
    have herr := roundHalfEven_abs_sub_le (x / u)
    have hfac : (roundHalfEven (x / u) : ℚ) * u - x =
        -((x / u - (roundHalfEven (x / u) : ℚ)) * u) := by
      field_simp
      ring
    rw [hfac, abs_neg, abs_mul, abs_of_pos hu]
    have hule : u / 2 ≤ x / 9007199254740992 := by
      rw [hudef, ulp_eq]
      linarith
    calc |x / u - (roundHalfEven (x / u) : ℚ)| * u ≤ 1 / 2 * u :=
          mul_le_mul_of_nonneg_right herr hu.le
      _ = u / 2 := by ring
      _ ≤ _ := hule

theorem roundF64_one : roundF64 1 = 1 := by
  rw [roundF64_eq_of 0 4503599627370496 (by norm_num) (by norm_num) (by norm_num)]
  norm_num

theorem roundF64_three : roundF64 3 = 3 := by
  rw [roundF64_eq_of 1 6755399441055744 (by norm_num) (by norm_num) (by norm_num)]
  norm_num

theorem roundF64_300 : roundF64 300 = 300 := by
  rw [roundF64_eq_of 8 5277655813324800 (by norm_num) (by norm_num) (by norm_num)]
  norm_num

theorem roundF64_550 : roundF64 550 = 550 := by
  rw [roundF64_eq_of 9 4837851162214400 (by norm_num) (by norm_num) (by norm_num)]
  norm_num

theorem roundF64_850 : roundF64 850 = 850 := by
  rw [roundF64_eq_of 9 7476679068876800 (by norm_num) (by norm_num) (by norm_num)]
  norm_num

theorem roundF64_third : roundF64 (1 / 3) = 6004799503160661 / 18014398509481984 := by
  rw [roundF64_eq_of (-2) 6004799503160661 (by norm_num) (by norm_num)
    (by rw [abs_lt]; norm_num)]
  norm_num

theorem roundF64_third_times_550 :
    roundF64 (6004799503160661 / 18014398509481984 * 550) =
      3225234108142933 / 17592186044416 := by
  rw [roundF64_eq_of 7 6450468216285866 (by norm_num) (by norm_num)
    (by rw [abs_lt]; norm_num)]
  norm_num

theorem roundF64_sum_unfused :
    roundF64 (300 + 3225234108142933 / 17592186044416) =
      8502889921467733 / 17592186044416 := by
  rw [roundF64_eq_of 8 8502889921467733 (by norm_num) (by norm_num)
    (by rw [abs_lt]; norm_num)]
  norm_num

theorem roundF64_sum_fused :
    roundF64 (300 + 6004799503160661 / 18014398509481984 * 550) =
      8502889921467733 / 17592186044416 := by
  rw [roundF64_eq_of 8 8502889921467733 (by norm_num) (by norm_num)
    (by rw [abs_lt]; norm_num)]
  norm_num

theorem calculateLoanHistoryScoreF64_eq (fused : Bool) (history : List dto.LoanHistoryItem)
    (h : history ≠ []) :
    calculateLoanHistoryScoreF64 fused history =
      if fused then
        roundF64 (300 + roundF64 (roundF64 (history.countP (fun loan => loan.Status = "paid") : ℚ) /
          roundF64 (history.length : ℚ)) * 550)
      else
        roundF64 (300 + roundF64 (roundF64 (roundF64
          (history.countP (fun loan => loan.Status = "paid") : ℚ) /
          roundF64 (history.length : ℚ)) * 550)) := by
  have hlen : history.length ≠ 0 := by
    simpa [List.length_eq_zero] using h
  simp only [calculateLoanHistoryScoreF64, hlen, if_false, foldl_paid_count, Nat.zero_add]

/-- The rounded quotient of the rounded counts lies in [0, 1] and within 5 * 2^-53 of the
exact quotient. -/
theorem rounded_ratio_bounds (p n : Nat) (hpn : p ≤ n) (hn : 0 < n) :
    0 ≤ roundF64 (roundF64 (p : ℚ) / roundF64 (n : ℚ)) ∧
    roundF64 (roundF64 (p : ℚ) / roundF64 (n : ℚ)) ≤ 1 ∧
    |roundF64 (roundF64 (p : ℚ) / roundF64 (n : ℚ)) - (p : ℚ) / (n : ℚ)| ≤
      5 / 9007199254740992 := by
  have hp0 : (0 : ℚ) ≤ (p : ℚ) := Nat.cast_nonneg p
  have hn1 : (1 : ℚ) ≤ (n : ℚ) := by exact_mod_cast hn
  have hpnq : (p : ℚ) ≤ (n : ℚ) := by exact_mod_cast hpn
  have hP0 : 0 ≤ roundF64 (p : ℚ) := by
    have := roundF64_mono (le_refl (0 : ℚ)) hp0
    rwa [roundF64_zero] at this
  have hPN : roundF64 (p : ℚ) ≤ roundF64 (n : ℚ) := roundF64_mono hp0 hpnq
  have hN1 : 1 ≤ roundF64 (n : ℚ) := by
    have := roundF64_mono (by norm_num : (0 : ℚ) ≤ 1) hn1
    rwa [roundF64_one] at this
  have hNpos : 0 < roundF64 (n : ℚ) := by linarith
  have hPerr := abs_le.mp (roundF64_rel_error hp0)
  have hNerr := abs_le.mp (roundF64_rel_error (by linarith : (0 : ℚ) ≤ (n : ℚ)))
  have hq0 : 0 ≤ roundF64 (p : ℚ) / roundF64 (n : ℚ) := div_nonneg hP0 hNpos.le
  have hq1 : roundF64 (p : ℚ) / roundF64 (n : ℚ) ≤ 1 := (div_le_one hNpos).mpr hPN
  have hr0 : 0 ≤ roundF64 (roundF64 (p : ℚ) / roundF64 (n : ℚ)) := by
    have := roundF64_mono (le_refl (0 : ℚ)) hq0
    rwa [roundF64_zero] at this
  have hr1 : roundF64 (roundF64 (p : ℚ) / roundF64 (n : ℚ)) ≤ 1 := by
    have := roundF64_mono hq0 hq1
    rwa [roundF64_one] at this
  have hrerr := abs_le.mp (roundF64_rel_error hq0)
  have hnpos : (0 : ℚ) < (n : ℚ) := by linarith
  -- the quotient of the rounded counts against the exact quotient
  have hNn : (0 : ℚ) < roundF64 (n : ℚ) * (n : ℚ) := mul_pos hNpos hnpos
  have hdiff : roundF64 (p : ℚ) / roundF64 (n : ℚ) - (p : ℚ) / (n : ℚ) =
      (roundF64 (p : ℚ) * (n : ℚ) - (p : ℚ) * roundF64 (n : ℚ)) /
        (roundF64 (n : ℚ) * (n : ℚ)) := by
    field_simp
    ring
  have hNhalf : (n : ℚ) ≤ 2 * roundF64 (n : ℚ) := by linarith [hNerr.1]
  have hpn2 : (p : ℚ) * (n : ℚ) ≤ (n : ℚ) * (n : ℚ) :=
    mul_le_mul_of_nonneg_right hpnq hnpos.le
  have hnn : (n : ℚ) * (n : ℚ) ≤ 2 * (roundF64 (n : ℚ) * (n : ℚ)) := by nlinarith
  have hnum1 : roundF64 (p : ℚ) * (n : ℚ) - (p : ℚ) * roundF64 (n : ℚ) ≤
      2 * ((p : ℚ) * (n : ℚ)) / 9007199254740992 := by
    have e1 : roundF64 (p : ℚ) * (n : ℚ) ≤ ((p : ℚ) + (p : ℚ) / 9007199254740992) * (n : ℚ) :=
      mul_le_mul_of_nonneg_right (by linarith [hPerr.2]) hnpos.le
    have e2 : (p : ℚ) * ((n : ℚ) - (n : ℚ) / 9007199254740992) ≤ (p : ℚ) * roundF64 (n : ℚ) :=
      mul_le_mul_of_nonneg_left (by linarith [hNerr.1]) hp0
    have e3 : ((p : ℚ) + (p : ℚ) / 9007199254740992) * (n : ℚ) -
        (p : ℚ) * ((n : ℚ) - (n : ℚ) / 9007199254740992) =
        2 * ((p : ℚ) * (n : ℚ)) / 9007199254740992 := by ring
    linarith
  have hnum2 : -(2 * ((p : ℚ) * (n : ℚ)) / 9007199254740992) ≤
      roundF64 (p : ℚ) * (n : ℚ) - (p : ℚ) * roundF64 (n : ℚ) := by
    have e1 : ((p : ℚ) - (p : ℚ) / 9007199254740992) * (n : ℚ) ≤ roundF64 (p : ℚ) * (n : ℚ) :=
      mul_le_mul_of_nonneg_right (by linarith [hPerr.1]) hnpos.le
    have e2 : (p : ℚ) * roundF64 (n : ℚ) ≤ (p : ℚ) * ((n : ℚ) + (n : ℚ) / 9007199254740992) :=
      mul_le_mul_of_nonneg_left (by linarith [hNerr.2]) hp0
    have e3 : ((p : ℚ) - (p : ℚ) / 9007199254740992) * (n : ℚ) -
        (p : ℚ) * ((n : ℚ) + (n : ℚ) / 9007199254740992) =
        -(2 * ((p : ℚ) * (n : ℚ)) / 9007199254740992) := by ring
    linarith
  have hq : |roundF64 (p : ℚ) / roundF64 (n : ℚ) - (p : ℚ) / (n : ℚ)| ≤
      4 / 9007199254740992 := by
    rw [hdiff, abs_le]
    constructor
    · rw [le_div_iff₀ hNn]
      linarith
    · rw [div_le_iff₀ hNn]
      linarith
  have hq' := abs_le.mp hq
  refine ⟨hr0, hr1, ?_⟩
  rw [abs_le]
  constructor <;> linarith [hrerr.1, hrerr.2]

/-- From a rounded ratio in [0, 1] the rounded score lies in [300, 850] and within
2^-40 of the exact score of any ratio that is within 5 * 2^-53 of the rounded one. -/
theorem rounded_score_bounds (fused : Bool) (r e : ℚ) (hr0 : 0 ≤ r) (hr1 : r ≤ 1)
    (he : |r - e| ≤ 5 / 9007199254740992) :
    300 ≤ (if fused then roundF64 (300 + r * 550) else roundF64 (300 + roundF64 (r * 550))) ∧
    (if fused then roundF64 (300 + r * 550) else roundF64 (300 + roundF64 (r * 550))) ≤ 850 ∧
    |(if fused then roundF64 (300 + r * 550) else roundF64 (300 + roundF64 (r * 550))) -
        (300 + e * 550)| ≤ 1 / 1099511627776 := by
  have he' := abs_le.mp he
  cases fused with
  | true =>
    simp only [if_true]
    have hs0 : (0 : ℚ) ≤ 300 + r * 550 := by nlinarith
    have hlo := roundF64_mono (by norm_num : (0 : ℚ) ≤ 300) (by nlinarith : (300 : ℚ) ≤ 300 + r * 550)
    have hhi := roundF64_mono hs0 (by nlinarith : 300 + r * 550 ≤ (850 : ℚ))
    rw [roundF64_300] at hlo
    rw [roundF64_850] at hhi
    have herr := abs_le.mp (roundF64_rel_error hs0)
    refine ⟨hlo, hhi, ?_⟩
    rw [abs_le]
    constructor <;> linarith [herr.1, herr.2]
  | false =>
    simp only [Bool.false_eq_true, if_false]
    have hp0 : (0 : ℚ) ≤ r * 550 := by nlinarith
    have hy0 := roundF64_mono (le_refl (0 : ℚ)) hp0
    have hy1 := roundF64_mono hp0 (by nlinarith : r * 550 ≤ (550 : ℚ))
    rw [roundF64_zero] at hy0
    rw [roundF64_550] at hy1
    have hyerr := abs_le.mp (roundF64_rel_error hp0)
    have hs0 : (0 : ℚ) ≤ 300 + roundF64 (r * 550) := by linarith
    have hlo := roundF64_mono (by norm_num : (0 : ℚ) ≤ 300)
      (by linarith : (300 : ℚ) ≤ 300 + roundF64 (r * 550))
    have hhi := roundF64_mono hs0 (by linarith : 300 + roundF64 (r * 550) ≤ (850 : ℚ))
    rw [roundF64_300] at hlo
    rw [roundF64_850] at hhi
    have herr := abs_le.mp (roundF64_rel_error hs0)
    refine ⟨hlo, hhi, ?_⟩
    rw [abs_le]
    constructor <;> linarith [herr.1, herr.2, hyerr.1, hyerr.2]

theorem countP_paid_le (history : List dto.LoanHistoryItem) :
    history.countP (fun loan => loan.Status = "paid") ≤ history.length :=
  List.countP_le_length (fun loan : dto.LoanHistoryItem => decide (loan.Status = "paid"))

/-- The rounded loan-history sub-score is within 2^-40 of the exact one. -/
theorem calculateLoanHistoryScoreF64_near_exact (fused : Bool)
    (history : List dto.LoanHistoryItem) :
    |calculateLoanHistoryScoreF64 fused history - calculateLoanHistoryScore history| ≤
      1 / 1099511627776 := by
  by_cases h : history = []
  · rw [h]
    norm_num [calculateLoanHistoryScoreF64, calculateLoanHistoryScore]
  · have hlen : 0 < history.length := List.length_pos.mpr h
    obtain ⟨hr0, hr1, hre⟩ := rounded_ratio_bounds _ _ (countP_paid_le history) hlen
    have hb := (rounded_score_bounds fused _ _ hr0 hr1 hre).2.2
    rw [calculateLoanHistoryScoreF64_eq fused history h,
      calculateLoanHistoryScore_ratio history h]
    cases fused <;> simpa using hb

theorem calculateLoanHistoryScoreF64_all_paid (fused : Bool)
    (history : List dto.LoanHistoryItem) (hne : history ≠ [])
    (hall : ∀ loan ∈ history, loan.Status = "paid") :
    calculateLoanHistoryScoreF64 fused history = 850 := by
  have hcount : history.countP (fun loan => loan.Status = "paid") = history.length := by
    rw [List.countP_eq_length]
    intro loan hl
    simpa using hall loan hl
  have hn1 : (1 : ℚ) ≤ (history.length : ℚ) := by
    have : 0 < history.length := List.length_pos.mpr hne
    exact_mod_cast this
  have hN1 : 1 ≤ roundF64 (history.length : ℚ) := by
    have := roundF64_mono (by norm_num : (0 : ℚ) ≤ 1) hn1
    rwa [roundF64_one] at this
  have hNne : roundF64 (history.length : ℚ) ≠ 0 := by linarith
  rw [calculateLoanHistoryScoreF64_eq fused history hne, hcount, div_self hNne, roundF64_one]
  cases fused
  · simp only [Bool.false_eq_true, if_false, one_mul, roundF64_550]
    norm_num [roundF64_850]
  · simp only [if_true, one_mul]
    norm_num [roundF64_850]

theorem calculateLoanHistoryScoreF64_none_paid (fused : Bool)
    (history : List dto.LoanHistoryItem) (hne : history ≠ [])
    (hall : ∀ loan ∈ history, loan.Status ≠ "paid") :
    calculateLoanHistoryScoreF64 fused history = 300 := by
  have hcount : history.countP (fun loan => loan.Status = "paid") = 0 := by
    rw [List.countP_eq_zero]
    intro loan hl
    simpa using hall loan hl
  rw [calculateLoanHistoryScoreF64_eq fused history hne, hcount]
  cases fused
  · simp only [Bool.false_eq_true, if_false, Nat.cast_zero, roundF64_zero, zero_div, zero_mul,
      add_zero, roundF64_300]
  · simp only [if_true, Nat.cast_zero, roundF64_zero, zero_div, zero_mul, add_zero,
      roundF64_300]

/-! ## C7 -/

/-- C7, amended: computed in `float64`, with or without a fused multiply-add,
`calculateLoanHistoryScore` returns exactly 500 for the empty history, exactly 850 for
every non-empty history whose entries all have status "paid", and exactly 300 for
every non-empty history with no entry of status "paid".  For every non-empty history
it returns the `float64` evaluation of 300 + (number of "paid" entries / number of
entries) * 550, each operation rounded to nearest; that value is always within
[300, 850] and within 2^-40 of the exact value of the expression. -/
theorem C7_loan_history_score_float64 :
    (∀ fused : Bool, calculateLoanHistoryScoreF64 fused [] = 500) ∧
    (∀ (fused : Bool) (history : List dto.LoanHistoryItem), history ≠ [] →
      (∀ loan ∈ history, loan.Status = "paid") →
      calculateLoanHistoryScoreF64 fused history = 850) ∧
    (∀ (fused : Bool) (history : List dto.LoanHistoryItem), history ≠ [] →
      (∀ loan ∈ history, loan.Status ≠ "paid") →
      calculateLoanHistoryScoreF64 fused history = 300) ∧
    (∀ (fused : Bool) (history : List dto.LoanHistoryItem), history ≠ [] →
      calculateLoanHistoryScoreF64 fused history =
        (if fused then
          roundF64 (300 + roundF64
            (roundF64 (history.countP (fun loan => loan.Status = "paid") : ℚ) /
              roundF64 (history.length : ℚ)) * 550)
        else
          roundF64 (300 + roundF64 (roundF64
            (roundF64 (history.countP (fun loan => loan.Status = "paid") : ℚ) /
              roundF64 (history.length : ℚ)) * 550))) ∧
      300 ≤ calculateLoanHistoryScoreF64 fused history ∧
      calculateLoanHistoryScoreF64 fused history ≤ 850 ∧
      |calculateLoanHistoryScoreF64 fused history -
          (300 + ((history.countP (fun loan => loan.Status = "paid") : ℚ) /
            (history.length : ℚ)) * 550)| ≤ 1 / 1099511627776) := by
  refine ⟨?_, calculateLoanHistoryScoreF64_all_paid, calculateLoanHistoryScoreF64_none_paid, ?_⟩
  · intro fused
    simp [calculateLoanHistoryScoreF64]
  · intro fused history hne
    have hlen : 0 < history.length := List.length_pos.mpr hne
    obtain ⟨hr0, hr1, hre⟩ := rounded_ratio_bounds _ _ (countP_paid_le history) hlen
    obtain ⟨hlo, hhi, herr⟩ := rounded_score_bounds fused _ _ hr0 hr1 hre
    rw [calculateLoanHistoryScoreF64_eq fused history hne]
    exact ⟨rfl, hlo, hhi, herr⟩

/-- C7, amended, at an all-paid history, a history without a paid entry, and the
history with one paid entry out of three. -/
theorem C7_witness :
    calculateLoanHistoryScoreF64 false sampleRequest.LoanHistory = 850 ∧
    calculateLoanHistoryScoreF64 true (sampleHistory.drop 1) = 300 ∧
    300 ≤ calculateLoanHistoryScoreF64 false sampleThirdHistory ∧
    calculateLoanHistoryScoreF64 false sampleThirdHistory ≤ 850 :=
  ⟨C7_loan_history_score_float64.2.1 false sampleRequest.LoanHistory (by decide) (by decide),
   C7_loan_history_score_float64.2.2.1 true (sampleHistory.drop 1) (by decide) (by decide),
   (C7_loan_history_score_float64.2.2.2 false sampleThirdHistory (by decide)).2.1,
   (C7_loan_history_score_float64.2.2.2 false sampleThirdHistory (by decide)).2.2.1⟩

/-- C7 as stated fails on the code: for the history with one "paid" entry out of
three the function returns the `float64` 8502889921467733 / 2^44
(483.3333333333333), with or without a fused multiply-add, which is not
300 + (1 / 3) * 550 = 1450 / 3. -/
theorem C7_one_paid_of_three_is_not_exact :
    sampleThirdHistory.countP (fun loan => loan.Status = "paid") = 1 ∧
    sampleThirdHistory.length = 3 ∧
    calculateLoanHistoryScoreF64 false sampleThirdHistory =
      8502889921467733 / 17592186044416 ∧
    calculateLoanHistoryScoreF64 true sampleThirdHistory =
      8502889921467733 / 17592186044416 ∧
    calculateLoanHistoryScoreF64 false sampleThirdHistory ≠
      300 + ((sampleThirdHistory.countP (fun loan => loan.Status = "paid") : ℚ) /
        (sampleThirdHistory.length : ℚ)) * 550 ∧
    calculateLoanHistoryScoreF64 true sampleThirdHistory ≠
      300 + ((sampleThirdHistory.countP (fun loan => loan.Status = "paid") : ℚ) /
        (sampleThirdHistory.length : ℚ)) * 550 := by
  have hc : sampleThirdHistory.countP (fun loan => loan.Status = "paid") = 1 := by decide
  have hl : sampleThirdHistory.length = 3 := by decide
  have hne : sampleThirdHistory ≠ [] := by decide
  have hf : calculateLoanHistoryScoreF64 false sampleThirdHistory =
      8502889921467733 / 17592186044416 := by
    rw [calculateLoanHistoryScoreF64_eq false sampleThirdHistory hne, hc, hl]
    simp only [Bool.false_eq_true, if_false, Nat.cast_one, Nat.cast_ofNat, roundF64_one,
      roundF64_three, roundF64_third, roundF64_third_times_550, roundF64_sum_unfused]
  have ht : calculateLoanHistoryScoreF64 true sampleThirdHistory =
      8502889921467733 / 17592186044416 := by
    rw [calculateLoanHistoryScoreF64_eq true sampleThirdHistory hne, hc, hl]
    simp only [if_true, Nat.cast_one, Nat.cast_ofNat, roundF64_one, roundF64_three,
      roundF64_third, roundF64_sum_fused]
  refine ⟨hc, hl, hf, ht, ?_, ?_⟩
  · rw [hf, hc, hl]; norm_num
  · rw [ht, hc, hl]; norm_num
